import Mathlib

/-!
# Shallow embedding of `src/posthog-llm.ts` (posthog-llm-client)

This file models the tracing data model of the PostHog LLM client:
the `Trace`, `Span`, `Generation` and `Embedding` classes, their
constructors, `update`, `end` and child-creation methods, and the
event records they hand to the PostHog client's `capture` call.

Modelling conventions:
* JavaScript objects used as maps (`Record<string, string>` custom
  properties, and the event property object built in each `end` method)
  are modelled as write-sequences `List (String × _)`; a later entry for
  a key overwrites an earlier one, so lookup is last-write-wins.  Object
  spread `{...a, ...b}` is the write sequence `a ++ b`.
* `Date.now()` timestamps and the fresh ids produced by `uuidv4()` are
  explicit parameters (`now`, `endTime`, `freshId`).
* Structured payloads (`any`-typed fields) are a JSON value type with
  integer numerals; `Record<string, any>`-typed fields are association
  lists of JSON values.  `JSON.stringify` is modelled recursively.
* JavaScript truthiness tests (`if (x)`, `x || y`, `x ?? y`) are
  modelled explicitly: empty strings and empty error messages are falsy,
  objects and arrays are always truthy.
* `throw` in a constructor is an `Except.error` result; the PostHog
  client's `capture` call is modelled by returning a `Capture` record.
  (The `client === null` branch, in which no event is emitted at all, is
  not modelled; every claim is about the emitted event.)
-/

namespace PosthogLLM

/-- JSON values, for `any`-typed payload fields. -/
inductive Json where
  | null
  | bool (b : Bool)
  | num (n : Int)
  | str (s : String)
  | arr (elems : List Json)
  | obj (fields : List (String × Json))

/-- A `Record<string, any>` value: a JavaScript object of JSON values. -/
abbrev JsonObj := List (String × Json)

/-- Escape one character for a JSON string literal. -/
def escapeChar (c : Char) : String :=
  if c = '\"' then "\\\"" else if c = '\\' then "\\\\" else String.singleton c

/-- Escape a string for inclusion in JSON output. -/
def escapeString (s : String) : String :=
  String.join (s.toList.map escapeChar)

mutual

/-- `JSON.stringify`, modelled recursively over JSON values. -/
def Json.stringify : Json → String
  | .null => "null"
  | .bool true => "true"
  | .bool false => "false"
  | .num n => toString n
  | .str s => "\"" ++ escapeString s ++ "\""
  | .arr elems => "[" ++ Json.stringifyList elems ++ "]"
  | .obj fields => "\x7b" ++ Json.stringifyFields fields ++ "\x7d"

/-- Comma-separated serialization of a JSON array's elements. -/
def Json.stringifyList : List Json → String
  | [] => ""
  | [x] => Json.stringify x
  | x :: y :: xs => Json.stringify x ++ "," ++ Json.stringifyList (y :: xs)

/-- Comma-separated serialization of a JSON object's fields. -/
def Json.stringifyFields : List (String × Json) → String
  | [] => ""
  | [(k, v)] => "\"" ++ escapeString k ++ "\":" ++ Json.stringify v
  | (k, v) :: y :: xs =>
      "\"" ++ escapeString k ++ "\":" ++ Json.stringify v ++ ","
        ++ Json.stringifyFields (y :: xs)

end

/-- JavaScript truthiness of a JSON value: `null`, `false`, `0` and `""`
are falsy; arrays and objects are always truthy. -/
def Json.truthy : Json → Bool
  | .null => false
  | .bool b => b
  | .num n => n != 0
  | .str s => s != ""
  | .arr _ => true
  | .obj _ => true

/-- The `error` field's type `Error | string`. -/
inductive ErrVal where
  | structured (j : Json)
  | message (s : String)

/-- Truthiness of an `Error | string` value: objects are truthy, a
string is truthy when non-empty. -/
def ErrVal.truthy : ErrVal → Bool
  | .structured _ => true
  | .message s => s != ""

/-- `typeof error === "object" ? JSON.stringify(error) : error.toString()`. -/
def ErrVal.normalize : ErrVal → String
  | .structured j => j.stringify
  | .message s => s

/-- A `Record<string, string>` custom-properties object, as a write
sequence with last-write-wins lookup. -/
abbrev PropMap := List (String × String)

/-- Last-write-wins lookup in a custom-properties object. -/
def PropMap.lookup : PropMap → String → Option String
  | [], _ => none
  | (k0, v0) :: rest, k =>
      match PropMap.lookup rest k with
      | some v => some v
      | none => if k0 == k then some v0 else none

/-- Whether a custom-properties object has an entry for a key. -/
def PropMap.hasKey (m : PropMap) (k : String) : Bool :=
  m.any (fun kv => kv.1 == k)

/-- Object spread `{...a, ...b}`: the writes of `a` then those of `b`,
so `b`'s value wins on a key collision. -/
def PropMap.merge (a b : PropMap) : PropMap := a ++ b

/-- A value in an emitted event's property map. -/
inductive Value where
  | str (s : String)
  | num (q : ℚ)
  | bool (b : Bool)
deriving DecidableEq

/-- The property map handed to `client.capture`, as a write sequence. -/
abbrev EventProps := List (String × Value)

/-- Last-write-wins lookup in an emitted event's property map. -/
def EventProps.get : EventProps → String → Option Value
  | [], _ => none
  | (k0, v0) :: rest, k =>
      match EventProps.get rest k with
      | some v => some v
      | none => if k0 == k then some v0 else none

/-- Whether an emitted event's property map contains a key. -/
def EventProps.hasKey (e : EventProps) (k : String) : Bool :=
  e.any (fun kv => kv.1 == k)

/-- One `client.capture({distinctId, event, properties})` call. -/
structure Capture where
  distinctId : String
  event : String
  properties : EventProps

/-- `a.orElse b` on options, written out (used to state last-write-wins
merges: the second map's value wins when present). -/
def optOr {α : Type} : Option α → Option α → Option α
  | some v, _ => some v
  | none, b => b

/-- Truthiness of an optional string (`undefined` and `""` are falsy). -/
def strTruthy : Option String → Bool
  | some s => s != ""
  | none => false

/-- `a || b` for an optional string with a string default: the default
is used when the option is `undefined` or the empty string. -/
def strOr (a : Option String) (b : String) : String :=
  match a with
  | some s => if s == "" then b else s
  | none => b

/-- `if (userEmail) ... else if (distinctId) ... else ...`: the first
truthy string of the two, if any. -/
def firstTruthy (a b : Option String) : Option String :=
  if strTruthy a then a else if strTruthy b then b else none

/-!
The `update` methods and the `if (options) {...}` blocks of the `end`
methods are sequences of conditional assignments, each to a distinct
field; they are modelled as one record update whose field formulas
mirror the assignments.  One helper per assignment pattern:
-/

/-- `if (o.x) this.x = o.x` for a `Record`-typed optional field
(a present value is an object, hence truthy). -/
def recUpd (o old : Option JsonObj) : Option JsonObj :=
  match o with
  | some v => some v
  | none => old

/-- `this.metadata = { ...this.metadata, ...o.metadata }`, guarded by
`if (o.metadata)`. -/
def metaUpd (o old : Option JsonObj) : Option JsonObj :=
  match o with
  | some m => some ((old.getD []) ++ m)
  | none => old

/-- `if (o.error) this.error = o.error` (an empty message string is
falsy and does not overwrite). -/
def errUpd (o old : Option ErrVal) : Option ErrVal :=
  match o with
  | some e => if e.truthy then some e else old
  | none => old

/-- `if (o.x) this.x = o.x` for an `any`-typed optional field. -/
def jsonUpd (o old : Option Json) : Option Json :=
  match o with
  | some v => if v.truthy then some v else old
  | none => old

/-- `if (o.x) this.x = o.x` for an `any`-typed required field. -/
def jsonUpdReq (o : Option Json) (old : Json) : Json :=
  match o with
  | some v => if v.truthy then v else old
  | none => old

/-- `if (o.x) this.x = o.x` for a string-typed optional field. -/
def strOptUpd (o old : Option String) : Option String :=
  match o with
  | some s => if s == "" then old else some s
  | none => old

/-! ## Option records (the `*Options` interfaces) -/

/-- `PostHogLLMOptions` (the fields the tracing core consumes; `apiKey`
and `host` only configure the network client). -/
structure PostHogLLMOptions where
  defaultPrivacyMode : Option Bool := none
  defaultDistinctId : Option String := none

/-- `TraceOptions`.  An absent `properties` object is modelled as `[]`
(spreading `undefined` contributes nothing). -/
structure TraceOptions where
  id : Option String := none
  name : String
  inputState : Option JsonObj := none
  outputState : Option JsonObj := none
  privacy : Option Bool := none
  userEmail : Option String := none
  distinctId : Option String := none
  metadata : Option JsonObj := none
  properties : PropMap := []
  isError : Option Bool := none
  error : Option ErrVal := none

/-- `TraceEndOptions`. -/
structure TraceEndOptions where
  outputState : Option JsonObj := none
  error : Option ErrVal := none
  isError : Option Bool := none

/-- The fields of `Partial<TraceOptions>` that `Trace.update` consults
(it ignores `id`, `userEmail`, `distinctId`). -/
structure TraceUpdate where
  name : Option String := none
  inputState : Option JsonObj := none
  outputState : Option JsonObj := none
  privacy : Option Bool := none
  metadata : Option JsonObj := none
  properties : PropMap := []
  isError : Option Bool := none
  error : Option ErrVal := none

/-- `SpanOptions`. -/
structure SpanOptions where
  id : Option String := none
  name : String
  inputState : Option JsonObj := none
  outputState : Option JsonObj := none
  metadata : Option JsonObj := none
  properties : PropMap := []
  error : Option ErrVal := none
  isError : Option Bool := none
  distinctId : Option String := none

/-- `SpanEndOptions`. -/
structure SpanEndOptions where
  outputState : Option JsonObj := none
  error : Option ErrVal := none
  isError : Option Bool := none

/-- The fields of `Partial<SpanOptions>` that `Span.update` consults
(it ignores `id`, `properties`, `distinctId`). -/
structure SpanUpdate where
  name : Option String := none
  inputState : Option JsonObj := none
  outputState : Option JsonObj := none
  metadata : Option JsonObj := none
  isError : Option Bool := none
  error : Option ErrVal := none

/-- `GenerationOptions`. -/
structure GenerationOptions where
  name : String
  model : String
  provider : String
  input : Json
  output : Option Json := none
  inputTokens : Option Int := none
  outputTokens : Option Int := none
  latency : Option ℚ := none
  httpStatus : Option Int := none
  baseUrl : Option String := none
  metadata : Option JsonObj := none
  properties : PropMap := []
  error : Option ErrVal := none
  isError : Option Bool := none
  distinctId : Option String := none

/-- `Partial<GenerationEndOptions>`. -/
structure GenerationEndOptions where
  output : Option Json := none
  inputTokens : Option Int := none
  outputTokens : Option Int := none
  latency : Option ℚ := none
  httpStatus : Option Int := none
  error : Option ErrVal := none
  isError : Option Bool := none

/-- An embedding's input: `string | string[]`. -/
inductive EmbInput where
  | text (s : String)
  | texts (ts : List String)

/-- `EmbeddingOptions`. -/
structure EmbeddingOptions where
  name : String
  model : String
  provider : String
  input : EmbInput
  inputTokens : Option Int := none
  latency : Option ℚ := none
  httpStatus : Option Int := none
  baseUrl : Option String := none
  metadata : Option JsonObj := none
  properties : PropMap := []
  error : Option ErrVal := none
  isError : Option Bool := none
  distinctId : Option String := none

/-- `Partial<EmbeddingEndOptions>`. -/
structure EmbeddingEndOptions where
  inputTokens : Option Int := none
  latency : Option ℚ := none
  httpStatus : Option Int := none
  error : Option ErrVal := none
  isError : Option Bool := none

/-! ## Event-property helpers (the conditional assignments in `end`) -/

/-- `if (x) properties[k] = JSON.stringify(x)` for a `Record` field
(a present `Record` value is an object, hence truthy). -/
def objField (k : String) (o : Option JsonObj) : EventProps :=
  match o with
  | some v => [(k, Value.str (Json.obj v).stringify)]
  | none => []

/-- `if (x !== undefined) properties[k] = x` for a numeric field. -/
def numField (k : String) (o : Option Int) : EventProps :=
  match o with
  | some n => [(k, Value.num (n : ℚ))]
  | none => []

/-- `if (x) properties[k] = x` for an optional string field (skipped
when the string is empty). -/
def strField (k : String) (o : Option String) : EventProps :=
  match o with
  | some s => if s == "" then [] else [(k, Value.str s)]
  | none => []

/-- `if (this.isError && this.error) properties.$ai_error = ...` with
the `object`/`string` normalization. -/
def errField (isError : Bool) (e : Option ErrVal) : EventProps :=
  if isError then
    match e with
    | some err => if err.truthy then [("$ai_error", Value.str err.normalize)] else []
    | none => []
  else []

/-- `...this.properties`: spreading the custom-properties object into
the event property map. -/
def customSeg (m : PropMap) : EventProps :=
  m.map (fun kv => (kv.1, Value.str kv.2))

/-! ## `Trace` -/

/-- The `Trace` class's instance fields. -/
structure Trace where
  id : String
  name : String
  startTime : Int
  inputState : Option JsonObj
  outputState : Option JsonObj
  privacy : Bool
  distinctId : String
  metadata : Option JsonObj
  properties : PropMap
  isError : Bool
  error : Option ErrVal

/-- The `Trace` constructor: `new Trace(options)` at time `now`, with
`freshId` the value `uuidv4()` would produce.  Throws when neither a
truthy `userEmail` nor a truthy `distinctId` is supplied. -/
def Trace.create (freshId : String) (now : Int) (options : TraceOptions) :
    Except String Trace :=
  match firstTruthy options.userEmail options.distinctId with
  | none => .error "A user email (userEmail) is required for PostHog tracing"
  | some d => .ok
      { id := strOr options.id freshId
        name := options.name
        startTime := now
        inputState := options.inputState
        outputState := options.outputState
        privacy := options.privacy.getD false
        distinctId := d
        metadata := options.metadata
        properties := options.properties
        isError := options.isError.getD false
        error := options.error }

/-- `PostHogLLM.trace(options)`: fills in `privacy` from the
process-wide default before construction.  Note it passes the options
through otherwise; in particular `defaultDistinctId` is not consulted. -/
def PostHogLLM.trace (cfg : PostHogLLMOptions) (freshId : String) (now : Int)
    (options : TraceOptions) : Except String Trace :=
  Trace.create freshId now
    { options with privacy := some (options.privacy.getD (cfg.defaultPrivacyMode.getD false)) }

/-- `Trace.update`: conditional overwrites of the scalar fields, plus
key-wise merges of `properties` and `metadata`. -/
def Trace.update (t : Trace) (options : TraceUpdate) : Trace :=
  { t with
    name := strOr options.name t.name
    inputState := recUpd options.inputState t.inputState
    outputState := recUpd options.outputState t.outputState
    properties := PropMap.merge t.properties options.properties
    metadata := metaUpd options.metadata t.metadata
    privacy := options.privacy.getD t.privacy
    isError := options.isError.getD t.isError
    error := errUpd options.error t.error }

/-- The `if (options) {...}` block of `Trace.end`: final overrides of
output state, error and error flag. -/
def Trace.applyEnd (t : Trace) (options : Option TraceEndOptions) : Trace :=
  match options with
  | none => t
  | some o =>
    { t with
      outputState := recUpd o.outputState t.outputState
      error := errUpd o.error t.error
      isError := o.isError.getD t.isError }

/-- The property map the `$ai_trace` event is emitted with, as built in
`Trace.end`: base fields, custom-properties spread, then the
conditional assignments (input/output state gated on privacy mode,
metadata, error). -/
def Trace.eventProps (t : Trace) (latency : ℚ) : EventProps :=
  [("$ai_trace_id", Value.str t.id),
   ("$ai_span_id", Value.str t.id),
   ("$ai_span_name", Value.str t.name),
   ("$ai_latency", Value.num latency),
   ("$ai_is_error", Value.bool t.isError)]
  ++ customSeg t.properties
  ++ (if !t.privacy then
        objField "$ai_input_state" t.inputState
          ++ objField "$ai_output_state" t.outputState
      else [])
  ++ objField "$ai_metadata" t.metadata
  ++ errField t.isError t.error

/-- `Trace.end(options)` at time `endTime`: computes the latency,
applies the end options and emits one `$ai_trace` capture.  Returns the
(mutated) trace together with the capture. -/
def Trace.end (t : Trace) (options : Option TraceEndOptions) (endTime : Int) :
    Trace × Capture :=
  let latency : ℚ := ((endTime - t.startTime : Int) : ℚ) / 1000
  let t := Trace.applyEnd t options
  (t, { distinctId := t.distinctId
        event := "$ai_trace"
        properties := Trace.eventProps t latency })

/-! ## `Span` -/

/-- The `Span` class's instance fields. -/
structure Span where
  id : String
  distinctId : String
  traceId : String
  parentId : Option String
  name : String
  startTime : Int
  inputState : Option JsonObj
  outputState : Option JsonObj
  metadata : Option JsonObj
  properties : PropMap
  isError : Bool
  error : Option ErrVal

/-- The `Span` constructor: throws when `options.distinctId` is not a
truthy string (it must be passed from the trace). -/
def Span.create (traceId : String) (parentId : Option String) (freshId : String)
    (now : Int) (options : SpanOptions) : Except String Span :=
  if !(strTruthy options.distinctId) then
    .error "Span must have a distinctId (passed from trace)"
  else .ok
    { id := strOr options.id freshId
      distinctId := options.distinctId.getD ""
      traceId := traceId
      parentId := parentId
      name := options.name
      startTime := now
      inputState := options.inputState
      outputState := options.outputState
      metadata := options.metadata
      properties := options.properties
      isError := options.isError.getD false
      error := options.error }

/-- `Trace.span(options)`: child span of the trace itself — no parent
span id, the trace's `distinctId` overriding any supplied one, and the
trace's properties spread under the span's own. -/
def Trace.span (t : Trace) (freshId : String) (now : Int)
    (options : SpanOptions) : Except String Span :=
  Span.create t.id none freshId now
    { options with
        distinctId := some t.distinctId
        properties := PropMap.merge t.properties options.properties }

/-- `Span.span(options)`: child span of another span — the parent
span's id as `parentId`, its `distinctId`, and its properties spread
under the child's own. -/
def Span.span (s : Span) (freshId : String) (now : Int)
    (options : SpanOptions) : Except String Span :=
  Span.create s.traceId (some s.id) freshId now
    { options with
        distinctId := some s.distinctId
        properties := PropMap.merge s.properties options.properties }

/-- `Span.update` (it merges metadata but not properties). -/
def Span.update (s : Span) (options : SpanUpdate) : Span :=
  { s with
    name := strOr options.name s.name
    inputState := recUpd options.inputState s.inputState
    outputState := recUpd options.outputState s.outputState
    metadata := metaUpd options.metadata s.metadata
    isError := options.isError.getD s.isError
    error := errUpd options.error s.error }

/-- The `if (options) {...}` block of `Span.end`. -/
def Span.applyEnd (s : Span) (options : Option SpanEndOptions) : Span :=
  match options with
  | none => s
  | some o =>
    { s with
      outputState := recUpd o.outputState s.outputState
      error := errUpd o.error s.error
      isError := o.isError.getD s.isError }

/-- The property map of the `$ai_span` event: input/output state are
always included when present (spans have no privacy flag), and
`$ai_parent_id` is the parent span's id, defaulting to the trace id. -/
def Span.eventProps (s : Span) (latency : ℚ) : EventProps :=
  [("$ai_trace_id", Value.str s.traceId),
   ("$ai_span_id", Value.str s.id),
   ("$ai_span_name", Value.str s.name),
   ("$ai_parent_id", Value.str (strOr s.parentId s.traceId)),
   ("$ai_latency", Value.num latency),
   ("$ai_is_error", Value.bool s.isError)]
  ++ customSeg s.properties
  ++ objField "$ai_input_state" s.inputState
  ++ objField "$ai_output_state" s.outputState
  ++ objField "$ai_metadata" s.metadata
  ++ errField s.isError s.error

/-- `Span.end(options)` at time `endTime`. -/
def Span.end (s : Span) (options : Option SpanEndOptions) (endTime : Int) :
    Span × Capture :=
  let latency : ℚ := ((endTime - s.startTime : Int) : ℚ) / 1000
  let s := Span.applyEnd s options
  (s, { distinctId := s.distinctId
        event := "$ai_span"
        properties := Span.eventProps s latency })

/-! ## `Generation` -/

/-- The `Generation` class's instance fields.  The constructor does not
store `options.latency`; `latency` is only assigned in `end`. -/
structure Generation where
  traceId : String
  name : String
  distinctId : String
  startTime : Int
  model : String
  provider : String
  input : Json
  output : Option Json
  inputTokens : Option Int
  outputTokens : Option Int
  latency : Option ℚ
  httpStatus : Option Int
  baseUrl : Option String
  metadata : Option JsonObj
  properties : PropMap
  isError : Bool
  error : Option ErrVal

/-- The `Generation` constructor: throws when `options.distinctId` is
not a truthy string. -/
def Generation.create (traceId : String) (now : Int)
    (options : GenerationOptions) : Except String Generation :=
  if !(strTruthy options.distinctId) then
    .error "Generation must have a distinctId (passed from trace)"
  else .ok
    { traceId := traceId
      name := options.name
      distinctId := options.distinctId.getD ""
      startTime := now
      model := options.model
      provider := options.provider
      input := options.input
      output := options.output
      inputTokens := options.inputTokens
      outputTokens := options.outputTokens
      latency := none
      httpStatus := options.httpStatus
      baseUrl := options.baseUrl
      metadata := options.metadata
      properties := options.properties
      isError := options.isError.getD false
      error := options.error }

/-- `Trace.generation(options)`: the trace's `distinctId` overriding
any supplied one, and the trace's properties spread under the
generation's own. -/
def Trace.generation (t : Trace) (now : Int) (options : GenerationOptions) :
    Except String Generation :=
  Generation.create t.id now
    { options with
        distinctId := some t.distinctId
        properties := PropMap.merge t.properties options.properties }

/-- The fields of `Partial<GenerationOptions>` that `Generation.update`
consults (it ignores `latency`, `properties`, `distinctId`). -/
structure GenerationUpdate where
  name : Option String := none
  model : Option String := none
  provider : Option String := none
  input : Option Json := none
  output : Option Json := none
  inputTokens : Option Int := none
  outputTokens : Option Int := none
  httpStatus : Option Int := none
  baseUrl : Option String := none
  metadata : Option JsonObj := none
  isError : Option Bool := none
  error : Option ErrVal := none

/-- `Generation.update` (it does not touch `distinctId` or `latency`,
and it merges metadata but not properties). -/
def Generation.update (g : Generation) (options : GenerationUpdate) : Generation :=
  { g with
    name := strOr options.name g.name
    model := strOr options.model g.model
    provider := strOr options.provider g.provider
    input := jsonUpdReq options.input g.input
    output := jsonUpd options.output g.output
    inputTokens := optOr options.inputTokens g.inputTokens
    outputTokens := optOr options.outputTokens g.outputTokens
    httpStatus := optOr options.httpStatus g.httpStatus
    baseUrl := strOptUpd options.baseUrl g.baseUrl
    metadata := metaUpd options.metadata g.metadata
    isError := options.isError.getD g.isError
    error := errUpd options.error g.error }

/-- The `if (options) {...}` block of `Generation.end` (note it reads
`output`, `outputTokens`, `httpStatus`, `error`, `isError` but not
`inputTokens` or `latency`; the latency was consumed separately). -/
def Generation.applyEnd (g : Generation) (options : Option GenerationEndOptions) :
    Generation :=
  match options with
  | none => g
  | some o =>
    { g with
      output := jsonUpd o.output g.output
      outputTokens := optOr o.outputTokens g.outputTokens
      httpStatus := optOr o.httpStatus g.httpStatus
      error := errUpd o.error g.error
      isError := o.isError.getD g.isError }

/-- `if (this.output) {...}`: the `$ai_output_choices` assignment — an
array output is serialized as is, any other truthy output is wrapped in
a one-element array with the default role `"assistant"`. -/
def genOutputField (output : Option Json) : EventProps :=
  match output with
  | some out =>
      if out.truthy then
        [("$ai_output_choices", Value.str (match out with
          | Json.arr elems => (Json.arr elems).stringify
          | _ => (Json.arr [Json.obj [("role", Json.str "assistant"), ("content", out)]]).stringify))]
      else []
  | none => []

/-- The property map of the `$ai_generation` event. -/
def Generation.eventProps (g : Generation) (latency : ℚ) : EventProps :=
  [("$ai_trace_id", Value.str g.traceId),
   ("$ai_model", Value.str g.model),
   ("$ai_provider", Value.str g.provider),
   ("$ai_input", Value.str g.input.stringify),
   ("$ai_latency", Value.num latency),
   ("$ai_is_error", Value.bool g.isError)]
  ++ customSeg g.properties
  ++ genOutputField g.output
  ++ numField "$ai_input_tokens" g.inputTokens
  ++ numField "$ai_output_tokens" g.outputTokens
  ++ numField "$ai_http_status" g.httpStatus
  ++ strField "$ai_base_url" g.baseUrl
  ++ objField "$ai_metadata" g.metadata
  ++ errField g.isError g.error

/-- `options?.latency !== undefined ? options.latency : (endTime -
this.startTime) / 1000`: the latency a generation's `end` reports. -/
def genEndLatency (g : Generation) (options : Option GenerationEndOptions)
    (endTime : Int) : ℚ :=
  match options with
  | some o =>
      match o.latency with
      | some l => l
      | none => ((endTime - g.startTime : Int) : ℚ) / 1000
  | none => ((endTime - g.startTime : Int) : ℚ) / 1000

/-- `Generation.end(options)` at time `endTime`: an explicit
`options.latency` takes precedence over the measured wall-clock time. -/
def Generation.end (g : Generation) (options : Option GenerationEndOptions)
    (endTime : Int) : Generation × Capture :=
  let latency : ℚ := genEndLatency g options endTime
  let g := { Generation.applyEnd g options with latency := some latency }
  (g, { distinctId := g.distinctId
        event := "$ai_generation"
        properties := Generation.eventProps g latency })

/-! ## `Embedding` -/

/-- The `Embedding` class's instance fields (no output, no output
tokens, no `update` method). -/
structure Embedding where
  traceId : String
  name : String
  distinctId : String
  startTime : Int
  model : String
  provider : String
  input : EmbInput
  inputTokens : Option Int
  latency : Option ℚ
  httpStatus : Option Int
  baseUrl : Option String
  metadata : Option JsonObj
  properties : PropMap
  isError : Bool
  error : Option ErrVal

/-- The `Embedding` constructor: throws when `options.distinctId` is
not a truthy string. -/
def Embedding.create (traceId : String) (now : Int)
    (options : EmbeddingOptions) : Except String Embedding :=
  if !(strTruthy options.distinctId) then
    .error "Embedding must have a distinctId (passed from trace)"
  else .ok
    { traceId := traceId
      name := options.name
      distinctId := options.distinctId.getD ""
      startTime := now
      model := options.model
      provider := options.provider
      input := options.input
      inputTokens := options.inputTokens
      latency := none
      httpStatus := options.httpStatus
      baseUrl := options.baseUrl
      metadata := options.metadata
      properties := options.properties
      isError := options.isError.getD false
      error := options.error }

/-- `Trace.embedding(options)`. -/
def Trace.embedding (t : Trace) (now : Int) (options : EmbeddingOptions) :
    Except String Embedding :=
  Embedding.create t.id now
    { options with
        distinctId := some t.distinctId
        properties := PropMap.merge t.properties options.properties }

/-- The `if (options) {...}` block of `Embedding.end` (it reads
`httpStatus`, `error`, `isError`; `inputTokens` and `latency` are
consumed separately or not at all). -/
def Embedding.applyEnd (e : Embedding) (options : Option EmbeddingEndOptions) :
    Embedding :=
  match options with
  | none => e
  | some o =>
    { e with
      httpStatus := optOr o.httpStatus e.httpStatus
      error := errUpd o.error e.error
      isError := o.isError.getD e.isError }

/-- `typeof input === "string" ? input : JSON.stringify(input)`. -/
def EmbInput.serialize : EmbInput → String
  | .text s => s
  | .texts ts => (Json.arr (ts.map Json.str)).stringify

/-- The property map of the `$ai_embedding` event. -/
def Embedding.eventProps (e : Embedding) (latency : ℚ) : EventProps :=
  [("$ai_trace_id", Value.str e.traceId),
   ("$ai_model", Value.str e.model),
   ("$ai_provider", Value.str e.provider),
   ("$ai_input", Value.str e.input.serialize),
   ("$ai_latency", Value.num latency),
   ("$ai_is_error", Value.bool e.isError)]
  ++ customSeg e.properties
  ++ numField "$ai_input_tokens" e.inputTokens
  ++ numField "$ai_http_status" e.httpStatus
  ++ strField "$ai_base_url" e.baseUrl
  ++ objField "$ai_metadata" e.metadata
  ++ errField e.isError e.error

/-- `options?.latency !== undefined ? options.latency : (endTime -
this.startTime) / 1000`: the latency an embedding's `end` reports. -/
def embEndLatency (e : Embedding) (options : Option EmbeddingEndOptions)
    (endTime : Int) : ℚ :=
  match options with
  | some o =>
      match o.latency with
      | some l => l
      | none => ((endTime - e.startTime : Int) : ℚ) / 1000
  | none => ((endTime - e.startTime : Int) : ℚ) / 1000

/-- `Embedding.end(options)` at time `endTime`: an explicit
`options.latency` takes precedence over the measured wall-clock time. -/
def Embedding.end (e : Embedding) (options : Option EmbeddingEndOptions)
    (endTime : Int) : Embedding × Capture :=
  let latency : ℚ := embEndLatency e options endTime
  let e := { Embedding.applyEnd e options with latency := some latency }
  (e, { distinctId := e.distinctId
        event := "$ai_embedding"
        properties := Embedding.eventProps e latency })

/-! ## Lemmas about write-sequence maps -/

theorem optOr_none_right {α : Type} (a : Option α) : optOr a none = a := by
  cases a <;> rfl

theorem optOr_none_left {α : Type} (a : Option α) : optOr none a = a := rfl

/-- Lookup across a spread: the right-hand (later) map's value wins. -/
theorem PropMap.lookup_append (a b : PropMap) (k : String) :
    PropMap.lookup (a ++ b) k = optOr (PropMap.lookup b k) (PropMap.lookup a k) := by
  induction a with
  | nil => simp [PropMap.lookup, optOr_none_right]
  | cons kv rest ih =>
      obtain ⟨k0, v0⟩ := kv
      simp only [List.cons_append, PropMap.lookup, List.append_eq]
      rw [ih]
      cases PropMap.lookup b k <;> cases PropMap.lookup rest k <;> simp [optOr]

theorem propMap_hasKey_append (a b : PropMap) (k : String) :
    PropMap.hasKey (a ++ b) k = (PropMap.hasKey a k || PropMap.hasKey b k) := by
  simp [PropMap.hasKey]

/-- Event-map lookup across an append: later writes win. -/
theorem EventProps.get_append (xs ys : EventProps) (k : String) :
    EventProps.get (xs ++ ys) k = optOr (EventProps.get ys k) (EventProps.get xs k) := by
  induction xs with
  | nil => simp [EventProps.get, optOr_none_right]
  | cons kv rest ih =>
      obtain ⟨k0, v0⟩ := kv
      simp only [List.cons_append, EventProps.get, List.append_eq]
      rw [ih]
      cases EventProps.get ys k <;> cases EventProps.get rest k <;> simp [optOr]

theorem event_hasKey_append (xs ys : EventProps) (k : String) :
    EventProps.hasKey (xs ++ ys) k = (EventProps.hasKey xs k || EventProps.hasKey ys k) := by
  simp [EventProps.hasKey]

/-- A key is in the event map exactly when its lookup succeeds. -/
theorem event_hasKey_eq_isSome (e : EventProps) (k : String) :
    EventProps.hasKey e k = (EventProps.get e k).isSome := by
  induction e with
  | nil => rfl
  | cons kv rest ih =>
      obtain ⟨k0, v0⟩ := kv
      simp only [EventProps.hasKey, List.any_cons] at ih ⊢
      simp only [EventProps.get]
      cases h : EventProps.get rest k with
      | some v => rw [h] at ih; simp [ih]
      | none =>
          rw [h] at ih
          cases hk : (k0 == k) <;> simp [hk, ih]

/-- Lookup in the spread custom-properties segment. -/
theorem EventProps.get_customSeg (m : PropMap) (k : String) :
    EventProps.get (customSeg m) k = Option.map Value.str (PropMap.lookup m k) := by
  induction m with
  | nil => rfl
  | cons kv rest ih =>
      obtain ⟨k0, v0⟩ := kv
      simp only [customSeg, List.map_cons, EventProps.get, PropMap.lookup]
      simp only [customSeg] at ih
      rw [ih]
      cases PropMap.lookup rest k <;> simp

theorem EventProps.hasKey_customSeg (m : PropMap) (k : String) :
    EventProps.hasKey (customSeg m) k = PropMap.hasKey m k := by
  induction m with
  | nil => rfl
  | cons kv rest ih =>
      simp only [customSeg, List.map_cons, EventProps.hasKey, PropMap.hasKey,
        List.any_cons] at ih ⊢
      rw [ih]

/-- The conditional `Record`-field assignment, looked up at its own key. -/
theorem EventProps.get_objField_self (k : String) (o : Option JsonObj) :
    EventProps.get (objField k o) k
      = Option.map (fun v => Value.str (Json.obj v).stringify) o := by
  cases o <;> simp [objField, EventProps.get]

/-- The conditional `Record`-field assignment never writes another key. -/
theorem EventProps.get_objField_ne (k k' : String) (o : Option JsonObj)
    (h : (k == k') = false) :
    EventProps.get (objField k o) k' = none := by
  cases o <;> simp [objField, EventProps.get, h]

theorem EventProps.hasKey_objField (k k' : String) (o : Option JsonObj) :
    EventProps.hasKey (objField k o) k' = (o.isSome && (k == k')) := by
  cases o <;> simp [objField, EventProps.hasKey]

theorem EventProps.get_numField_ne (k k' : String) (o : Option Int)
    (h : (k == k') = false) :
    EventProps.get (numField k o) k' = none := by
  cases o <;> simp [numField, EventProps.get, h]

theorem EventProps.get_strField_ne (k k' : String) (o : Option String)
    (h : (k == k') = false) :
    EventProps.get (strField k o) k' = none := by
  cases o with
  | none => rfl
  | some s =>
      by_cases hs : s = ""
      · simp [strField, hs, EventProps.get]
      · simp [strField, hs, EventProps.get, h]

/-- The error-field assignment, looked up at `$ai_error`. -/
theorem EventProps.get_errField_self (b : Bool) (e : Option ErrVal) :
    EventProps.get (errField b e) "$ai_error"
      = (if b then
           match e with
           | some err => if err.truthy then some (Value.str err.normalize) else none
           | none => none
         else none) := by
  cases b with
  | false => rfl
  | true =>
      cases e with
      | none => rfl
      | some err =>
          by_cases ht : err.truthy <;> simp [errField, ht, EventProps.get]

/-- The error-field assignment never writes another key. -/
theorem EventProps.get_errField_ne (b : Bool) (e : Option ErrVal) (k : String)
    (h : ("$ai_error" == k) = false) :
    EventProps.get (errField b e) k = none := by
  cases b with
  | false => rfl
  | true =>
      cases e with
      | none => rfl
      | some err =>
          by_cases ht : err.truthy <;> simp [errField, ht, EventProps.get, h]

/-- The generation-output assignment never writes another key. -/
theorem EventProps.get_genOutputField_ne (o : Option Json) (k : String)
    (h : ("$ai_output_choices" == k) = false) :
    EventProps.get (genOutputField o) k = none := by
  cases o with
  | none => rfl
  | some out =>
      by_cases ht : out.truthy <;> simp [genOutputField, ht, EventProps.get, h]

/-! ## The end-options block and `update` leave the other fields alone -/

theorem trace_applyEnd_privacy (t : Trace) (o : Option TraceEndOptions) :
    (Trace.applyEnd t o).privacy = t.privacy := by
  cases o <;> rfl

theorem trace_applyEnd_inputState (t : Trace) (o : Option TraceEndOptions) :
    (Trace.applyEnd t o).inputState = t.inputState := by
  cases o <;> rfl

theorem trace_applyEnd_properties (t : Trace) (o : Option TraceEndOptions) :
    (Trace.applyEnd t o).properties = t.properties := by
  cases o <;> rfl

theorem trace_applyEnd_distinctId (t : Trace) (o : Option TraceEndOptions) :
    (Trace.applyEnd t o).distinctId = t.distinctId := by
  cases o <;> rfl

theorem trace_applyEnd_startTime (t : Trace) (o : Option TraceEndOptions) :
    (Trace.applyEnd t o).startTime = t.startTime := by
  cases o <;> rfl

theorem trace_applyEnd_id (t : Trace) (o : Option TraceEndOptions) :
    (Trace.applyEnd t o).id = t.id := by
  cases o <;> rfl

theorem span_applyEnd_inputState (s : Span) (o : Option SpanEndOptions) :
    (Span.applyEnd s o).inputState = s.inputState := by
  cases o <;> rfl

theorem span_applyEnd_properties (s : Span) (o : Option SpanEndOptions) :
    (Span.applyEnd s o).properties = s.properties := by
  cases o <;> rfl

theorem span_applyEnd_distinctId (s : Span) (o : Option SpanEndOptions) :
    (Span.applyEnd s o).distinctId = s.distinctId := by
  cases o <;> rfl

theorem span_applyEnd_startTime (s : Span) (o : Option SpanEndOptions) :
    (Span.applyEnd s o).startTime = s.startTime := by
  cases o <;> rfl

theorem span_applyEnd_id (s : Span) (o : Option SpanEndOptions) :
    (Span.applyEnd s o).id = s.id := by
  cases o <;> rfl

theorem span_applyEnd_parentId (s : Span) (o : Option SpanEndOptions) :
    (Span.applyEnd s o).parentId = s.parentId := by
  cases o <;> rfl

theorem span_applyEnd_traceId (s : Span) (o : Option SpanEndOptions) :
    (Span.applyEnd s o).traceId = s.traceId := by
  cases o <;> rfl

theorem span_update_distinctId (s : Span) (u : SpanUpdate) :
    (Span.update s u).distinctId = s.distinctId := rfl

theorem gen_applyEnd_distinctId (g : Generation) (o : Option GenerationEndOptions) :
    (Generation.applyEnd g o).distinctId = g.distinctId := by
  cases o <;> rfl

theorem gen_applyEnd_properties (g : Generation) (o : Option GenerationEndOptions) :
    (Generation.applyEnd g o).properties = g.properties := by
  cases o <;> rfl

theorem gen_update_distinctId (g : Generation) (u : GenerationUpdate) :
    (Generation.update g u).distinctId = g.distinctId := rfl

theorem emb_applyEnd_distinctId (e : Embedding) (o : Option EmbeddingEndOptions) :
    (Embedding.applyEnd e o).distinctId = e.distinctId := by
  cases o <;> rfl

theorem emb_applyEnd_properties (e : Embedding) (o : Option EmbeddingEndOptions) :
    (Embedding.applyEnd e o).properties = e.properties := by
  cases o <;> rfl

/-- A key is in a custom-properties object exactly when its lookup
succeeds. -/
theorem propMap_hasKey_eq_isSome (m : PropMap) (k : String) :
    PropMap.hasKey m k = (PropMap.lookup m k).isSome := by
  induction m with
  | nil => rfl
  | cons kv rest ih =>
      obtain ⟨k0, v0⟩ := kv
      simp only [PropMap.hasKey, List.any_cons] at ih ⊢
      simp only [PropMap.lookup]
      cases h : PropMap.lookup rest k with
      | some v => rw [h] at ih; simp [ih]
      | none =>
          rw [h] at ih
          cases hk : (k0 == k) <;> simp [hk, ih]

/-! ## Unfolding the `end` methods -/

theorem trace_end_fst (t : Trace) (o : Option TraceEndOptions) (et : Int) :
    (Trace.end t o et).1 = Trace.applyEnd t o := rfl

theorem trace_end_capture (t : Trace) (o : Option TraceEndOptions) (et : Int) :
    (Trace.end t o et).2
      = { distinctId := (Trace.applyEnd t o).distinctId
          event := "$ai_trace"
          properties := Trace.eventProps (Trace.applyEnd t o)
            (((et - t.startTime : Int) : ℚ) / 1000) } := rfl

theorem span_end_fst (s : Span) (o : Option SpanEndOptions) (et : Int) :
    (Span.end s o et).1 = Span.applyEnd s o := rfl

theorem span_end_capture (s : Span) (o : Option SpanEndOptions) (et : Int) :
    (Span.end s o et).2
      = { distinctId := (Span.applyEnd s o).distinctId
          event := "$ai_span"
          properties := Span.eventProps (Span.applyEnd s o)
            (((et - s.startTime : Int) : ℚ) / 1000) } := rfl

theorem gen_end_fst (g : Generation) (o : Option GenerationEndOptions) (et : Int) :
    (Generation.end g o et).1
      = { Generation.applyEnd g o with latency := some (genEndLatency g o et) } := rfl

theorem gen_end_capture (g : Generation) (o : Option GenerationEndOptions) (et : Int) :
    (Generation.end g o et).2
      = { distinctId := (Generation.applyEnd g o).distinctId
          event := "$ai_generation"
          properties := Generation.eventProps
            { Generation.applyEnd g o with latency := some (genEndLatency g o et) }
            (genEndLatency g o et) } := rfl

theorem emb_end_fst (e : Embedding) (o : Option EmbeddingEndOptions) (et : Int) :
    (Embedding.end e o et).1
      = { Embedding.applyEnd e o with latency := some (embEndLatency e o et) } := rfl

theorem emb_end_capture (e : Embedding) (o : Option EmbeddingEndOptions) (et : Int) :
    (Embedding.end e o et).2
      = { distinctId := (Embedding.applyEnd e o).distinctId
          event := "$ai_embedding"
          properties := Embedding.eventProps
            { Embedding.applyEnd e o with latency := some (embEndLatency e o et) }
            (embEndLatency e o et) } := rfl

/-! ## Characterizing successful child construction -/

/-- A successful span construction, written out. -/
theorem Span.create_ok (traceId : String) (parentId : Option String)
    (freshId : String) (now : Int) (o : SpanOptions) (d : String)
    (hd : o.distinctId = some d) (h : d ≠ "") :
    Span.create traceId parentId freshId now o = Except.ok
      { id := strOr o.id freshId
        distinctId := d
        traceId := traceId
        parentId := parentId
        name := o.name
        startTime := now
        inputState := o.inputState
        outputState := o.outputState
        metadata := o.metadata
        properties := o.properties
        isError := o.isError.getD false
        error := o.error } := by
  simp [Span.create, strTruthy, hd, h]

/-- `Trace.span` on a trace with a non-empty `distinctId` (every trace
the constructor builds has one) always succeeds, with the trace's
`distinctId` and the merged properties. -/
theorem traceSpan_ok (t : Trace) (f : String) (n : Int) (o : SpanOptions)
    (h : t.distinctId ≠ "") :
    Trace.span t f n o = Except.ok
      { id := strOr o.id f
        distinctId := t.distinctId
        traceId := t.id
        parentId := none
        name := o.name
        startTime := n
        inputState := o.inputState
        outputState := o.outputState
        metadata := o.metadata
        properties := PropMap.merge t.properties o.properties
        isError := o.isError.getD false
        error := o.error } := by
  unfold Trace.span
  exact Span.create_ok _ _ _ _ _ _ rfl h

/-- `Span.span` on a span with a non-empty `distinctId` always
succeeds, with the parent span's id as `parentId`, its `distinctId`,
and the merged properties. -/
theorem spanSpan_ok (p : Span) (f : String) (n : Int) (o : SpanOptions)
    (h : p.distinctId ≠ "") :
    Span.span p f n o = Except.ok
      { id := strOr o.id f
        distinctId := p.distinctId
        traceId := p.traceId
        parentId := some p.id
        name := o.name
        startTime := n
        inputState := o.inputState
        outputState := o.outputState
        metadata := o.metadata
        properties := PropMap.merge p.properties o.properties
        isError := o.isError.getD false
        error := o.error } := by
  unfold Span.span
  exact Span.create_ok _ _ _ _ _ _ rfl h

/-- A successful generation construction from a trace. -/
theorem Trace.generation_ok (t : Trace) (n : Int) (o : GenerationOptions)
    (h : t.distinctId ≠ "") :
    Trace.generation t n o = Except.ok
      { traceId := t.id
        name := o.name
        distinctId := t.distinctId
        startTime := n
        model := o.model
        provider := o.provider
        input := o.input
        output := o.output
        inputTokens := o.inputTokens
        outputTokens := o.outputTokens
        latency := none
        httpStatus := o.httpStatus
        baseUrl := o.baseUrl
        metadata := o.metadata
        properties := PropMap.merge t.properties o.properties
        isError := o.isError.getD false
        error := o.error } := by
  simp [Trace.generation, Generation.create, strTruthy, h]

/-- A successful embedding construction from a trace. -/
theorem Trace.embedding_ok (t : Trace) (n : Int) (o : EmbeddingOptions)
    (h : t.distinctId ≠ "") :
    Trace.embedding t n o = Except.ok
      { traceId := t.id
        name := o.name
        distinctId := t.distinctId
        startTime := n
        model := o.model
        provider := o.provider
        input := o.input
        inputTokens := o.inputTokens
        latency := none
        httpStatus := o.httpStatus
        baseUrl := o.baseUrl
        metadata := o.metadata
        properties := PropMap.merge t.properties o.properties
        isError := o.isError.getD false
        error := o.error } := by
  simp [Trace.embedding, Embedding.create, strTruthy, h]

/-- Inversion: any span the `Span` constructor accepts carries the
`distinctId` from its options. -/
theorem span_create_distinctId (traceId : String) (parentId : Option String)
    (freshId : String) (now : Int) (o : SpanOptions) (s : Span)
    (h : Span.create traceId parentId freshId now o = Except.ok s) :
    s.distinctId = o.distinctId.getD "" := by
  unfold Span.create at h
  split at h
  · exact absurd h (by simp)
  · simp only [Except.ok.injEq] at h
    subst h
    rfl

/-- Inversion: a span created by `Trace.span` carries the trace's
`distinctId`, whatever `distinctId` the options supplied. -/
theorem traceSpan_distinctId (t : Trace) (f : String) (n : Int)
    (o : SpanOptions) (s : Span) (h : Trace.span t f n o = Except.ok s) :
    s.distinctId = t.distinctId := by
  unfold Trace.span at h
  exact span_create_distinctId _ _ _ _ _ _ h

/-- Inversion: a span created by `Span.span` carries the parent span's
`distinctId`, whatever `distinctId` the options supplied. -/
theorem spanSpan_distinctId (p : Span) (f : String) (n : Int)
    (o : SpanOptions) (s : Span) (h : Span.span p f n o = Except.ok s) :
    s.distinctId = p.distinctId := by
  unfold Span.span at h
  exact span_create_distinctId _ _ _ _ _ _ h

/-- Inversion for the `Generation` constructor. -/
theorem gen_create_distinctId (traceId : String) (now : Int)
    (o : GenerationOptions) (g : Generation)
    (h : Generation.create traceId now o = Except.ok g) :
    g.distinctId = o.distinctId.getD "" := by
  unfold Generation.create at h
  split at h
  · exact absurd h (by simp)
  · simp only [Except.ok.injEq] at h
    subst h
    rfl

/-- Inversion: a generation created by `Trace.generation` carries the
trace's `distinctId`. -/
theorem Trace.generation_distinctId (t : Trace) (n : Int)
    (o : GenerationOptions) (g : Generation)
    (h : Trace.generation t n o = Except.ok g) :
    g.distinctId = t.distinctId := by
  unfold Trace.generation at h
  exact gen_create_distinctId _ _ _ _ h

/-- Inversion for the `Embedding` constructor. -/
theorem emb_create_distinctId (traceId : String) (now : Int)
    (o : EmbeddingOptions) (e : Embedding)
    (h : Embedding.create traceId now o = Except.ok e) :
    e.distinctId = o.distinctId.getD "" := by
  unfold Embedding.create at h
  split at h
  · exact absurd h (by simp)
  · simp only [Except.ok.injEq] at h
    subst h
    rfl

/-- Inversion: an embedding created by `Trace.embedding` carries the
trace's `distinctId`. -/
theorem Trace.embedding_distinctId (t : Trace) (n : Int)
    (o : EmbeddingOptions) (e : Embedding)
    (h : Trace.embedding t n o = Except.ok e) :
    e.distinctId = t.distinctId := by
  unfold Trace.embedding at h
  exact emb_create_distinctId _ _ _ _ h

/-- A lookup at a key the map does not contain yields nothing. -/
theorem PropMap.lookup_eq_none (m : PropMap) (k : String)
    (h : PropMap.hasKey m k = false) : PropMap.lookup m k = none := by
  cases hl : PropMap.lookup m k with
  | none => rfl
  | some v => rw [propMap_hasKey_eq_isSome, hl] at h; simp at h

theorem trace_end_props (t : Trace) (o : Option TraceEndOptions) (et : Int) :
    (Trace.end t o et).2.properties
      = Trace.eventProps (Trace.applyEnd t o)
          (((et - t.startTime : Int) : ℚ) / 1000) := rfl

theorem span_end_props (s : Span) (o : Option SpanEndOptions) (et : Int) :
    (Span.end s o et).2.properties
      = Span.eventProps (Span.applyEnd s o)
          (((et - s.startTime : Int) : ℚ) / 1000) := rfl

theorem gen_end_props (g : Generation) (o : Option GenerationEndOptions) (et : Int) :
    (Generation.end g o et).2.properties
      = Generation.eventProps
          { Generation.applyEnd g o with latency := some (genEndLatency g o et) }
          (genEndLatency g o et) := rfl

theorem emb_end_props (e : Embedding) (o : Option EmbeddingEndOptions) (et : Int) :
    (Embedding.end e o et).2.properties
      = Embedding.eventProps
          { Embedding.applyEnd e o with latency := some (embEndLatency e o et) }
          (embEndLatency e o et) := rfl

/-! ## Sample entities, for instantiating the hypothesised theorems -/

/-- A sample trace: properties `{a:"1"}`, input state `{q:"hi"}`. -/
def sampleTrace : Trace :=
  { id := "t1"
    name := "op"
    startTime := 0
    inputState := some [("q", Json.str "hi")]
    outputState := none
    privacy := false
    distinctId := "u@example.com"
    metadata := none
    properties := [("a", "1")]
    isError := false
    error := none }

/-- Sample span options: own property `{b:"2"}` and a conflicting
`distinctId` (which the parent must override). -/
def sampleSpanOptions : SpanOptions :=
  { name := "sp", properties := [("b", "2")], distinctId := some "other" }

/-- The span `sampleTrace.span(sampleSpanOptions)` creates (fresh id
`"s1"`, at time 5). -/
def sampleSpan : Span :=
  { id := "s1"
    distinctId := "u@example.com"
    traceId := "t1"
    parentId := none
    name := "sp"
    startTime := 5
    inputState := none
    outputState := none
    metadata := none
    properties := [("a", "1"), ("b", "2")]
    isError := false
    error := none }

/-- `sampleSpan` really is what `Trace.span` constructs. -/
theorem sampleSpan_eq :
    Trace.span sampleTrace "s1" 5 sampleSpanOptions = Except.ok sampleSpan := rfl

/-- Sample generation options (minimal required fields). -/
def sampleGenOptions : GenerationOptions :=
  { name := "gen", model := "gpt-4", provider := "openai", input := Json.str "in" }

/-- Sample embedding options (minimal required fields). -/
def sampleEmbOptions : EmbeddingOptions :=
  { name := "emb", model := "ada", provider := "openai", input := EmbInput.text "x" }

/-- A sample trace identical to `sampleTrace` but in privacy mode. -/
def samplePrivTrace : Trace :=
  { sampleTrace with privacy := true }

/-- A sample trace carrying a structured error with the flag set. -/
def sampleErrTrace : Trace :=
  { sampleTrace with
      isError := true
      error := some (ErrVal.structured (Json.obj [("message", Json.str "boom")])) }

/-- A sample generation. -/
def sampleGen : Generation :=
  { traceId := "t1"
    name := "gen"
    distinctId := "u@example.com"
    startTime := 0
    model := "gpt-4"
    provider := "openai"
    input := Json.str "in"
    output := none
    inputTokens := none
    outputTokens := none
    latency := none
    httpStatus := none
    baseUrl := none
    metadata := none
    properties := [("a", "1")]
    isError := false
    error := none }

/-- A sample embedding. -/
def sampleEmb : Embedding :=
  { traceId := "t1"
    name := "emb"
    distinctId := "u@example.com"
    startTime := 0
    model := "ada"
    provider := "openai"
    input := EmbInput.text "x"
    inputTokens := none
    latency := none
    httpStatus := none
    baseUrl := none
    metadata := none
    properties := [("a", "1")]
    isError := false
    error := none }

/-! ## C1 -/

/-- Creating a child span and then updating the parent trace: the pair
of the child (created first) and the updated parent. -/
def traceSpanThenUpdate (t : Trace) (f : String) (n : Int) (o : SpanOptions)
    (u : TraceUpdate) : Except String Span × Trace :=
  (Trace.span t f n o, Trace.update t u)

/-- Creating a child span and then updating the parent span. -/
def spanSpanThenUpdate (p : Span) (f : String) (n : Int) (o : SpanOptions)
    (u : SpanUpdate) : Except String Span × Span :=
  (Span.span p f n o, Span.update p u)

/-- **C1**: for a Trace or Span parent `P` and any child-creation call
with supplied properties `O`, the child's properties at creation are
the key-wise merge of `P`'s properties as they are at the moment of the
call with `O`, the value from `O` winning on key collision; and for any
subsequent update `u` of the parent after the child's creation, the
already-created child's map is unchanged (the left component below does
not depend on `u`, only on the parent's pre-update properties). -/
theorem C1_property_inheritance_snapshot
    (t : Trace) (p : Span) (f : String) (n : Int) (o : SpanOptions)
    (go : GenerationOptions) (eo : EmbeddingOptions)
    (u : TraceUpdate) (su : SpanUpdate) (k : String)
    (ht : t.distinctId ≠ "") (hp : p.distinctId ≠ "") :
    (Except.map (fun s => PropMap.lookup s.properties k)
        (traceSpanThenUpdate t f n o u).1
      = Except.ok (optOr (PropMap.lookup o.properties k) (PropMap.lookup t.properties k)))
    ∧ (Except.map (fun s => PropMap.lookup s.properties k)
        (spanSpanThenUpdate p f n o su).1
      = Except.ok (optOr (PropMap.lookup o.properties k) (PropMap.lookup p.properties k)))
    ∧ (Except.map (fun g => PropMap.lookup g.properties k) (Trace.generation t n go)
      = Except.ok (optOr (PropMap.lookup go.properties k) (PropMap.lookup t.properties k)))
    ∧ (Except.map (fun e => PropMap.lookup e.properties k) (Trace.embedding t n eo)
      = Except.ok (optOr (PropMap.lookup eo.properties k) (PropMap.lookup t.properties k))) := by
  refine ⟨?_, ?_, ?_, ?_⟩
  · show Except.map _ (Trace.span t f n o) = _
    rw [traceSpan_ok t f n o ht]
    simp [Except.map, PropMap.merge, PropMap.lookup_append]
  · show Except.map _ (Span.span p f n o) = _
    rw [spanSpan_ok p f n o hp]
    simp [Except.map, PropMap.merge, PropMap.lookup_append]
  · rw [Trace.generation_ok t n go ht]
    simp [Except.map, PropMap.merge, PropMap.lookup_append]
  · rw [Trace.embedding_ok t n eo ht]
    simp [Except.map, PropMap.merge, PropMap.lookup_append]

/-- Witness for C1 at the spec's own example: parent `{a:"1"}`, child
supplies `{b:"2"}`, parent is afterwards updated with `{a:"9"}`; the
already-created child still maps `a ↦ "1"` and `b ↦ "2"`. -/
theorem C1_witness :
    Except.map (fun s => PropMap.lookup s.properties "a")
        (traceSpanThenUpdate sampleTrace "s1" 5 sampleSpanOptions
          { properties := [("a", "9")] }).1
      = Except.ok (some "1")
    ∧ Except.map (fun s => PropMap.lookup s.properties "b")
        (traceSpanThenUpdate sampleTrace "s1" 5 sampleSpanOptions
          { properties := [("a", "9")] }).1
      = Except.ok (some "2") := by
  constructor
  · rw [(C1_property_inheritance_snapshot sampleTrace sampleSpan "s1" 5
      sampleSpanOptions sampleGenOptions sampleEmbOptions
      { properties := [("a", "9")] } {} "a" (by decide) (by decide)).1]
    rfl
  · rw [(C1_property_inheritance_snapshot sampleTrace sampleSpan "s1" 5
      sampleSpanOptions sampleGenOptions sampleEmbOptions
      { properties := [("a", "9")] } {} "b" (by decide) (by decide)).1]
    rfl

/-! ## C3 -/

/-- Spans reachable from a trace by any sequence of child-creation,
update and end calls (a span's `end` returns the possibly-mutated
span). -/
inductive DescSpan (t : Trace) : Span → Prop where
  | create (f : String) (n : Int) (o : SpanOptions) (s : Span) :
      Trace.span t f n o = Except.ok s → DescSpan t s
  | child (p : Span) (f : String) (n : Int) (o : SpanOptions) (s : Span) :
      DescSpan t p → Span.span p f n o = Except.ok s → DescSpan t s
  | update (p : Span) (u : SpanUpdate) : DescSpan t p → DescSpan t (Span.update p u)
  | ended (p : Span) (o : Option SpanEndOptions) (et : Int) :
      DescSpan t p → DescSpan t ((Span.end p o et).1)

/-- Generations reachable from a trace by creation, update and end. -/
inductive DescGen (t : Trace) : Generation → Prop where
  | create (n : Int) (o : GenerationOptions) (g : Generation) :
      Trace.generation t n o = Except.ok g → DescGen t g
  | update (g : Generation) (u : GenerationUpdate) :
      DescGen t g → DescGen t (Generation.update g u)
  | ended (g : Generation) (o : Option GenerationEndOptions) (et : Int) :
      DescGen t g → DescGen t ((Generation.end g o et).1)

/-- Embeddings reachable from a trace (embeddings have no update
method). -/
inductive DescEmb (t : Trace) : Embedding → Prop where
  | create (n : Int) (o : EmbeddingOptions) (e : Embedding) :
      Trace.embedding t n o = Except.ok e → DescEmb t e
  | ended (e : Embedding) (o : Option EmbeddingEndOptions) (et : Int) :
      DescEmb t e → DescEmb t ((Embedding.end e o et).1)

/-- **C3**: every span, generation or embedding reachable from a trace —
by any sequence of child creation (even with a different `distinctId`
in the options), update and closure — carries the `distinctId` fixed at
the trace's construction, and every capture it emits is addressed to
that `distinctId`. -/
theorem C3_distinct_id_immutable (t : Trace) :
    (∀ s, DescSpan t s → s.distinctId = t.distinctId)
    ∧ (∀ g, DescGen t g → g.distinctId = t.distinctId)
    ∧ (∀ e, DescEmb t e → e.distinctId = t.distinctId)
    ∧ (∀ s, DescSpan t s → ∀ o et, ((Span.end s o et).2).distinctId = t.distinctId)
    ∧ (∀ g, DescGen t g → ∀ o et, ((Generation.end g o et).2).distinctId = t.distinctId)
    ∧ (∀ e, DescEmb t e → ∀ o et, ((Embedding.end e o et).2).distinctId = t.distinctId) := by
  have hs : ∀ s, DescSpan t s → s.distinctId = t.distinctId := by
    intro s hds
    induction hds with
    | create f n o s h => exact traceSpan_distinctId _ _ _ _ _ h
    | child p f n o s hp h ih => rw [spanSpan_distinctId _ _ _ _ _ h]; exact ih
    | update p u hp ih => rw [span_update_distinctId]; exact ih
    | ended p o et hp ih =>
        rw [span_end_fst, span_applyEnd_distinctId]; exact ih
  have hg : ∀ g, DescGen t g → g.distinctId = t.distinctId := by
    intro g hdg
    induction hdg with
    | create n o g h => exact Trace.generation_distinctId _ _ _ _ h
    | update g u hp ih => rw [gen_update_distinctId]; exact ih
    | ended g o et hp ih =>
        rw [gen_end_fst]
        show (Generation.applyEnd g o).distinctId = t.distinctId
        rw [gen_applyEnd_distinctId]; exact ih
  have he : ∀ e, DescEmb t e → e.distinctId = t.distinctId := by
    intro e hde
    induction hde with
    | create n o e h => exact Trace.embedding_distinctId _ _ _ _ h
    | ended e o et hp ih =>
        rw [emb_end_fst]
        show (Embedding.applyEnd e o).distinctId = t.distinctId
        rw [emb_applyEnd_distinctId]; exact ih
  refine ⟨hs, hg, he, ?_, ?_, ?_⟩
  · intro s hds o et
    rw [span_end_capture]
    show (Span.applyEnd s o).distinctId = t.distinctId
    rw [span_applyEnd_distinctId]; exact hs s hds
  · intro g hdg o et
    rw [gen_end_capture]
    show (Generation.applyEnd g o).distinctId = t.distinctId
    rw [gen_applyEnd_distinctId]; exact hg g hdg
  · intro e hde o et
    rw [emb_end_capture]
    show (Embedding.applyEnd e o).distinctId = t.distinctId
    rw [emb_applyEnd_distinctId]; exact he e hde

/-- Witness for C3: the sample span (created with `distinctId: "other"`
in its options) carries — and its capture is addressed to — the
trace's distinct id. -/
theorem C3_witness :
    sampleSpan.distinctId = sampleTrace.distinctId
    ∧ ((Span.end sampleSpan none 9).2).distinctId = sampleTrace.distinctId := by
  have h := C3_distinct_id_immutable sampleTrace
  have hd : DescSpan sampleTrace sampleSpan :=
    DescSpan.create "s1" 5 sampleSpanOptions sampleSpan sampleSpan_eq
  exact ⟨h.1 sampleSpan hd, h.2.2.2.1 sampleSpan hd none 9⟩

/-! ## C2 -/

/-- A trace in privacy mode whose custom properties happen to contain a
key equal to the reserved input-state field name. -/
def cx2Trace : Trace :=
  { id := "t2"
    name := "op"
    startTime := 0
    inputState := some [("q", Json.str "hi")]
    outputState := none
    privacy := true
    distinctId := "u@example.com"
    metadata := none
    properties := [("$ai_input_state", "leak")]
    isError := false
    error := none }

/-- **C2 counterexample**: the claim says every root unit closed with
the privacy flag true emits an event whose property map contains no
input-state field; but the custom-properties spread precedes the
privacy gate, so a custom property named `$ai_input_state` still
reaches the emitted map. -/
theorem C2_counterexample :
    cx2Trace.privacy = true
    ∧ EventProps.hasKey ((Trace.end cx2Trace none 1000).2.properties)
        "$ai_input_state" = true := by
  exact ⟨rfl, rfl⟩

/-- **C2 (amended)**: provided the root unit's custom properties do not
themselves use the reserved input/output-state key, a root unit closed
in privacy mode emits no input-state and no output-state field; with
privacy off, a present input state (resp. final output state) is
emitted as its serialized string; spans always emit their present
input/output states; generations and embeddings always emit their
input field. -/
theorem C2_privacy_filter
    (t : Trace) (eo : Option TraceEndOptions) (et : Int)
    (s : Span) (so : Option SpanEndOptions) (st : Int)
    (g : Generation) (go : Option GenerationEndOptions) (gt : Int)
    (e : Embedding) (emo : Option EmbeddingEndOptions) (emt : Int) :
    (t.privacy = true → PropMap.hasKey t.properties "$ai_input_state" = false →
       EventProps.hasKey ((Trace.end t eo et).2.properties) "$ai_input_state" = false)
    ∧ (t.privacy = true → PropMap.hasKey t.properties "$ai_output_state" = false →
       EventProps.hasKey ((Trace.end t eo et).2.properties) "$ai_output_state" = false)
    ∧ (t.privacy = false → ∀ v, t.inputState = some v →
       EventProps.get ((Trace.end t eo et).2.properties) "$ai_input_state"
         = some (Value.str (Json.obj v).stringify))
    ∧ (t.privacy = false → ∀ v, (Trace.applyEnd t eo).outputState = some v →
       EventProps.get ((Trace.end t eo et).2.properties) "$ai_output_state"
         = some (Value.str (Json.obj v).stringify))
    ∧ (∀ v, s.inputState = some v →
       EventProps.get ((Span.end s so st).2.properties) "$ai_input_state"
         = some (Value.str (Json.obj v).stringify))
    ∧ (∀ v, (Span.applyEnd s so).outputState = some v →
       EventProps.get ((Span.end s so st).2.properties) "$ai_output_state"
         = some (Value.str (Json.obj v).stringify))
    ∧ EventProps.hasKey ((Generation.end g go gt).2.properties) "$ai_input" = true
    ∧ EventProps.hasKey ((Embedding.end e emo emt).2.properties) "$ai_input" = true := by
  refine ⟨?_, ?_, ?_, ?_, ?_, ?_, ?_, ?_⟩
  · intro hpriv hcust
    rw [trace_end_props, event_hasKey_eq_isSome]
    simp only [Trace.eventProps, EventProps.get_append, trace_applyEnd_privacy,
      trace_applyEnd_properties, hpriv]
    rw [EventProps.get_errField_ne _ _ _ (by decide),
      EventProps.get_objField_ne "$ai_metadata" _ _ (by decide),
      EventProps.get_customSeg, PropMap.lookup_eq_none _ _ hcust]
    simp [EventProps.get, optOr]
  · intro hpriv hcust
    rw [trace_end_props, event_hasKey_eq_isSome]
    simp only [Trace.eventProps, EventProps.get_append, trace_applyEnd_privacy,
      trace_applyEnd_properties, hpriv]
    rw [EventProps.get_errField_ne _ _ _ (by decide),
      EventProps.get_objField_ne "$ai_metadata" _ _ (by decide),
      EventProps.get_customSeg, PropMap.lookup_eq_none _ _ hcust]
    simp [EventProps.get, optOr]
  · intro hpriv v hv
    rw [trace_end_props]
    simp only [Trace.eventProps, EventProps.get_append, trace_applyEnd_privacy,
      trace_applyEnd_inputState, hpriv, hv]
    rw [EventProps.get_errField_ne _ _ _ (by decide),
      EventProps.get_objField_ne "$ai_metadata" _ _ (by decide)]
    simp only [Bool.not_false, if_true, EventProps.get_append]
    rw [EventProps.get_objField_ne "$ai_output_state" _ _ (by decide),
      EventProps.get_objField_self]
    simp [optOr]
  · intro hpriv v hv
    rw [trace_end_props]
    simp only [Trace.eventProps, EventProps.get_append, trace_applyEnd_privacy,
      hpriv, hv]
    rw [EventProps.get_errField_ne _ _ _ (by decide),
      EventProps.get_objField_ne "$ai_metadata" _ _ (by decide)]
    simp only [Bool.not_false, if_true, EventProps.get_append]
    rw [EventProps.get_objField_ne "$ai_input_state" _ _ (by decide),
      EventProps.get_objField_self]
    simp [optOr]
  · intro v hv
    rw [span_end_props]
    simp only [Span.eventProps, EventProps.get_append, span_applyEnd_inputState, hv]
    rw [EventProps.get_errField_ne _ _ _ (by decide),
      EventProps.get_objField_ne "$ai_metadata" _ _ (by decide),
      EventProps.get_objField_ne "$ai_output_state" _ _ (by decide),
      EventProps.get_objField_self]
    simp [optOr]
  · intro v hv
    rw [span_end_props]
    simp only [Span.eventProps, EventProps.get_append, hv]
    rw [EventProps.get_errField_ne _ _ _ (by decide),
      EventProps.get_objField_ne "$ai_metadata" _ _ (by decide),
      EventProps.get_objField_self]
    simp [optOr]
  · rw [gen_end_props]
    simp [Generation.eventProps, event_hasKey_append, EventProps.hasKey]
  · rw [emb_end_props]
    simp [Embedding.eventProps, event_hasKey_append, EventProps.hasKey]

/-- Witness for the amended C2: the privacy-mode sample trace emits no
input-state field; with privacy off the serialized input state
`{q:"hi"}` is emitted. -/
theorem C2_witness :
    EventProps.hasKey ((Trace.end samplePrivTrace none 1000).2.properties)
        "$ai_input_state" = false
    ∧ EventProps.get ((Trace.end sampleTrace none 1000).2.properties)
        "$ai_input_state"
      = some (Value.str (Json.obj [("q", Json.str "hi")]).stringify) := by
  constructor
  · exact (C2_privacy_filter samplePrivTrace none 1000 sampleSpan none 0
      sampleGen none 0 sampleEmb none 0).1 rfl rfl
  · exact (C2_privacy_filter sampleTrace none 1000 sampleSpan none 0
      sampleGen none 0 sampleEmb none 0).2.2.1 rfl _ rfl

/-! ## C4 -/

/-- Truthiness of `this.error` in the guard `this.isError && this.error`. -/
def errOptTruthy : Option ErrVal → Bool
  | some e => e.truthy
  | none => false

/-- In a trace event, the error key is the error-field assignment when
it fires, else whatever the custom properties wrote there. -/
theorem trace_eventProps_error (t : Trace) (l : ℚ) :
    EventProps.get (Trace.eventProps t l) "$ai_error"
      = optOr (EventProps.get (errField t.isError t.error) "$ai_error")
          (Option.map Value.str (PropMap.lookup t.properties "$ai_error")) := by
  simp only [Trace.eventProps, EventProps.get_append, EventProps.get_customSeg]
  rw [EventProps.get_objField_ne "$ai_metadata" _ _ (by decide)]
  have hseg : EventProps.get
      (if !t.privacy then
        objField "$ai_input_state" t.inputState
          ++ objField "$ai_output_state" t.outputState
      else []) "$ai_error" = none := by
    cases t.privacy with
    | false =>
        simp only [Bool.not_false, if_true, EventProps.get_append]
        rw [EventProps.get_objField_ne "$ai_input_state" _ _ (by decide),
          EventProps.get_objField_ne "$ai_output_state" _ _ (by decide)]
        rfl
    | true => rfl
  rw [hseg]
  simp [optOr_none_left, optOr_none_right, EventProps.get]

/-- Span-event analogue of `trace_eventProps_error`. -/
theorem span_eventProps_error (s : Span) (l : ℚ) :
    EventProps.get (Span.eventProps s l) "$ai_error"
      = optOr (EventProps.get (errField s.isError s.error) "$ai_error")
          (Option.map Value.str (PropMap.lookup s.properties "$ai_error")) := by
  simp only [Span.eventProps, EventProps.get_append, EventProps.get_customSeg]
  rw [EventProps.get_objField_ne "$ai_metadata" _ _ (by decide),
    EventProps.get_objField_ne "$ai_output_state" _ _ (by decide),
    EventProps.get_objField_ne "$ai_input_state" _ _ (by decide)]
  simp [optOr_none_left, optOr_none_right, EventProps.get]

/-- Generation-event analogue of `trace_eventProps_error`. -/
theorem gen_eventProps_error (g : Generation) (l : ℚ) :
    EventProps.get (Generation.eventProps g l) "$ai_error"
      = optOr (EventProps.get (errField g.isError g.error) "$ai_error")
          (Option.map Value.str (PropMap.lookup g.properties "$ai_error")) := by
  simp only [Generation.eventProps, EventProps.get_append, EventProps.get_customSeg]
  rw [EventProps.get_objField_ne "$ai_metadata" _ _ (by decide),
    EventProps.get_strField_ne "$ai_base_url" _ _ (by decide),
    EventProps.get_numField_ne "$ai_http_status" _ _ (by decide),
    EventProps.get_numField_ne "$ai_output_tokens" _ _ (by decide),
    EventProps.get_numField_ne "$ai_input_tokens" _ _ (by decide),
    EventProps.get_genOutputField_ne _ _ (by decide)]
  simp [optOr_none_left, optOr_none_right, EventProps.get]

/-- Embedding-event analogue of `trace_eventProps_error`. -/
theorem emb_eventProps_error (e : Embedding) (l : ℚ) :
    EventProps.get (Embedding.eventProps e l) "$ai_error"
      = optOr (EventProps.get (errField e.isError e.error) "$ai_error")
          (Option.map Value.str (PropMap.lookup e.properties "$ai_error")) := by
  simp only [Embedding.eventProps, EventProps.get_append, EventProps.get_customSeg]
  rw [EventProps.get_objField_ne "$ai_metadata" _ _ (by decide),
    EventProps.get_strField_ne "$ai_base_url" _ _ (by decide),
    EventProps.get_numField_ne "$ai_http_status" _ _ (by decide),
    EventProps.get_numField_ne "$ai_input_tokens" _ _ (by decide)]
  simp [optOr_none_left, optOr_none_right, EventProps.get]

/-- The error key of the event a generation's `end` emits (the latency
write does not affect the error-related fields). -/
theorem gen_end_error (g : Generation) (o : Option GenerationEndOptions) (et : Int) :
    EventProps.get ((Generation.end g o et).2.properties) "$ai_error"
      = optOr (EventProps.get (errField (Generation.applyEnd g o).isError
            (Generation.applyEnd g o).error) "$ai_error")
          (Option.map Value.str
            (PropMap.lookup (Generation.applyEnd g o).properties "$ai_error")) := by
  rw [gen_end_props, gen_eventProps_error]

/-- The error key of the event an embedding's `end` emits. -/
theorem emb_end_error (e : Embedding) (o : Option EmbeddingEndOptions) (et : Int) :
    EventProps.get ((Embedding.end e o et).2.properties) "$ai_error"
      = optOr (EventProps.get (errField (Embedding.applyEnd e o).isError
            (Embedding.applyEnd e o).error) "$ai_error")
          (Option.map Value.str
            (PropMap.lookup (Embedding.applyEnd e o).properties "$ai_error")) := by
  rw [emb_end_props, emb_eventProps_error]

/-- A trace whose error flag is true while its error value is the empty
string — present but falsy. -/
def cx4aTrace : Trace :=
  { id := "t4a"
    name := "op"
    startTime := 0
    inputState := none
    outputState := none
    privacy := false
    distinctId := "u@example.com"
    metadata := none
    properties := []
    isError := true
    error := some (ErrVal.message "")
    }

/-- A trace whose error flag is false but whose custom properties
contain a key named like the reserved error field. -/
def cx4bTrace : Trace :=
  { id := "t4b"
    name := "op"
    startTime := 0
    inputState := none
    outputState := none
    privacy := false
    distinctId := "u@example.com"
    metadata := none
    properties := [("$ai_error", "ghost")]
    isError := true
    error := none
    }

/-- **C4 counterexample**: (i) with the error flag true and a present —
but empty — error string, the guard `this.isError && this.error` is
falsy and no error field is emitted, contradicting the claimed
"if and only if the error flag is true AND an error value is present";
(ii) conversely, with no error value at all, a custom property named
`$ai_error` still puts the key into the emitted map. -/
theorem C4_counterexample :
    (cx4aTrace.isError = true ∧ cx4aTrace.error = some (ErrVal.message "")
      ∧ EventProps.hasKey ((Trace.end cx4aTrace none 0).2.properties) "$ai_error" = false)
    ∧ (cx4bTrace.error = none
      ∧ EventProps.hasKey ((Trace.end cx4bTrace none 0).2.properties) "$ai_error" = true) :=
  ⟨⟨rfl, rfl, rfl⟩, rfl, rfl⟩

/-- **C4 (amended)**: writing `X'` for a unit's state after the
end-options block, the emitted event contains an error field exactly
when `X'.isError` is true and `X'.error` is present and truthy (a
structured value, or a non-empty string) — a structured error is
serialized to its JSON string, a non-empty plain string passes through
unchanged — provided, for the "no error field" direction, that the
unit's custom properties do not use the reserved error key. -/
theorem C4_error_field
    (t : Trace) (eo : Option TraceEndOptions) (et : Int)
    (s : Span) (so : Option SpanEndOptions) (st : Int)
    (g : Generation) (go : Option GenerationEndOptions) (gt : Int)
    (e : Embedding) (emo : Option EmbeddingEndOptions) (emt : Int) :
    ((∀ j, (Trace.applyEnd t eo).isError = true →
        (Trace.applyEnd t eo).error = some (ErrVal.structured j) →
        EventProps.get ((Trace.end t eo et).2.properties) "$ai_error"
          = some (Value.str j.stringify))
      ∧ (∀ m, m ≠ "" → (Trace.applyEnd t eo).isError = true →
        (Trace.applyEnd t eo).error = some (ErrVal.message m) →
        EventProps.get ((Trace.end t eo et).2.properties) "$ai_error"
          = some (Value.str m))
      ∧ (PropMap.hasKey t.properties "$ai_error" = false →
        ((Trace.applyEnd t eo).isError = false
          ∨ errOptTruthy (Trace.applyEnd t eo).error = false) →
        EventProps.hasKey ((Trace.end t eo et).2.properties) "$ai_error" = false))
    ∧ ((∀ j, (Span.applyEnd s so).isError = true →
        (Span.applyEnd s so).error = some (ErrVal.structured j) →
        EventProps.get ((Span.end s so st).2.properties) "$ai_error"
          = some (Value.str j.stringify))
      ∧ (∀ m, m ≠ "" → (Span.applyEnd s so).isError = true →
        (Span.applyEnd s so).error = some (ErrVal.message m) →
        EventProps.get ((Span.end s so st).2.properties) "$ai_error"
          = some (Value.str m))
      ∧ (PropMap.hasKey s.properties "$ai_error" = false →
        ((Span.applyEnd s so).isError = false
          ∨ errOptTruthy (Span.applyEnd s so).error = false) →
        EventProps.hasKey ((Span.end s so st).2.properties) "$ai_error" = false))
    ∧ ((∀ j, (Generation.applyEnd g go).isError = true →
        (Generation.applyEnd g go).error = some (ErrVal.structured j) →
        EventProps.get ((Generation.end g go gt).2.properties) "$ai_error"
          = some (Value.str j.stringify))
      ∧ (∀ m, m ≠ "" → (Generation.applyEnd g go).isError = true →
        (Generation.applyEnd g go).error = some (ErrVal.message m) →
        EventProps.get ((Generation.end g go gt).2.properties) "$ai_error"
          = some (Value.str m))
      ∧ (PropMap.hasKey g.properties "$ai_error" = false →
        ((Generation.applyEnd g go).isError = false
          ∨ errOptTruthy (Generation.applyEnd g go).error = false) →
        EventProps.hasKey ((Generation.end g go gt).2.properties) "$ai_error" = false))
    ∧ ((∀ j, (Embedding.applyEnd e emo).isError = true →
        (Embedding.applyEnd e emo).error = some (ErrVal.structured j) →
        EventProps.get ((Embedding.end e emo emt).2.properties) "$ai_error"
          = some (Value.str j.stringify))
      ∧ (∀ m, m ≠ "" → (Embedding.applyEnd e emo).isError = true →
        (Embedding.applyEnd e emo).error = some (ErrVal.message m) →
        EventProps.get ((Embedding.end e emo emt).2.properties) "$ai_error"
          = some (Value.str m))
      ∧ (PropMap.hasKey e.properties "$ai_error" = false →
        ((Embedding.applyEnd e emo).isError = false
          ∨ errOptTruthy (Embedding.applyEnd e emo).error = false) →
        EventProps.hasKey ((Embedding.end e emo emt).2.properties) "$ai_error" = false)) := by
  refine ⟨⟨?_, ?_, ?_⟩, ⟨?_, ?_, ?_⟩, ⟨?_, ?_, ?_⟩, ⟨?_, ?_, ?_⟩⟩
  · intro j h1 h2
    rw [trace_end_props, trace_eventProps_error, h1, h2]
    simp [errField, ErrVal.truthy, ErrVal.normalize, EventProps.get, optOr]
  · intro m hm h1 h2
    rw [trace_end_props, trace_eventProps_error, h1, h2]
    simp [errField, ErrVal.truthy, hm, ErrVal.normalize, EventProps.get, optOr]
  · intro hc hoff
    rw [event_hasKey_eq_isSome, trace_end_props, trace_eventProps_error,
      trace_applyEnd_properties, PropMap.lookup_eq_none _ _ hc]
    rcases hoff with h | h
    · rw [h]; simp [errField, optOr, EventProps.get]
    · cases he : (Trace.applyEnd t eo).error with
      | none => simp [errField, optOr, EventProps.get]
      | some err =>
          rw [he] at h
          simp only [errOptTruthy] at h
          cases (Trace.applyEnd t eo).isError <;>
            simp [errField, h, optOr, EventProps.get]
  · intro j h1 h2
    rw [span_end_props, span_eventProps_error, h1, h2]
    simp [errField, ErrVal.truthy, ErrVal.normalize, EventProps.get, optOr]
  · intro m hm h1 h2
    rw [span_end_props, span_eventProps_error, h1, h2]
    simp [errField, ErrVal.truthy, hm, ErrVal.normalize, EventProps.get, optOr]
  · intro hc hoff
    rw [event_hasKey_eq_isSome, span_end_props, span_eventProps_error,
      span_applyEnd_properties, PropMap.lookup_eq_none _ _ hc]
    rcases hoff with h | h
    · rw [h]; simp [errField, optOr, EventProps.get]
    · cases he : (Span.applyEnd s so).error with
      | none => simp [errField, optOr, EventProps.get]
      | some err =>
          rw [he] at h
          simp only [errOptTruthy] at h
          cases (Span.applyEnd s so).isError <;>
            simp [errField, h, optOr, EventProps.get]
  · intro j h1 h2
    rw [gen_end_error, h1, h2]
    simp [errField, ErrVal.truthy, ErrVal.normalize, EventProps.get, optOr]
  · intro m hm h1 h2
    rw [gen_end_error, h1, h2]
    simp [errField, ErrVal.truthy, hm, ErrVal.normalize, EventProps.get, optOr]
  · intro hc hoff
    rw [event_hasKey_eq_isSome, gen_end_error,
      gen_applyEnd_properties, PropMap.lookup_eq_none _ _ hc]
    rcases hoff with h | h
    · rw [h]; simp [errField, optOr, EventProps.get]
    · cases he : (Generation.applyEnd g go).error with
      | none => simp [errField, optOr, EventProps.get]
      | some err =>
          rw [he] at h
          simp only [errOptTruthy] at h
          cases (Generation.applyEnd g go).isError <;>
            simp [errField, h, optOr, EventProps.get]
  · intro j h1 h2
    rw [emb_end_error, h1, h2]
    simp [errField, ErrVal.truthy, ErrVal.normalize, EventProps.get, optOr]
  · intro m hm h1 h2
    rw [emb_end_error, h1, h2]
    simp [errField, ErrVal.truthy, hm, ErrVal.normalize, EventProps.get, optOr]
  · intro hc hoff
    rw [event_hasKey_eq_isSome, emb_end_error,
      emb_applyEnd_properties, PropMap.lookup_eq_none _ _ hc]
    rcases hoff with h | h
    · rw [h]; simp [errField, optOr, EventProps.get]
    · cases he : (Embedding.applyEnd e emo).error with
      | none => simp [errField, optOr, EventProps.get]
      | some err =>
          rw [he] at h
          simp only [errOptTruthy] at h
          cases (Embedding.applyEnd e emo).isError <;>
            simp [errField, h, optOr, EventProps.get]

/-- Witness for the amended C4: a structured error `{message:"boom"}`
with the flag true is emitted as its JSON serialization; the sample
trace with the flag false emits no error field. -/
theorem C4_witness :
    EventProps.get ((Trace.end sampleErrTrace none 0).2.properties) "$ai_error"
      = some (Value.str (Json.obj [("message", Json.str "boom")]).stringify)
    ∧ EventProps.hasKey ((Trace.end sampleTrace none 0).2.properties) "$ai_error" = false := by
  constructor
  · exact (C4_error_field sampleErrTrace none 0 sampleSpan none 0
      sampleGen none 0 sampleEmb none 0).1.1 _ rfl rfl
  · exact (C4_error_field sampleTrace none 0 sampleSpan none 0
      sampleGen none 0 sampleEmb none 0).1.2.2 rfl (Or.inl rfl)

/-! ## C5 -/

/-- The parent-id key of a span event is `parentId || traceId`, unless
the span's custom properties shadow it. -/
theorem Span.eventProps_parentId (s : Span) (l : ℚ)
    (hc : PropMap.hasKey s.properties "$ai_parent_id" = false) :
    EventProps.get (Span.eventProps s l) "$ai_parent_id"
      = some (Value.str (strOr s.parentId s.traceId)) := by
  simp only [Span.eventProps, EventProps.get_append, EventProps.get_customSeg]
  rw [EventProps.get_errField_ne _ _ _ (by decide),
    EventProps.get_objField_ne "$ai_metadata" _ _ (by decide),
    EventProps.get_objField_ne "$ai_output_state" _ _ (by decide),
    EventProps.get_objField_ne "$ai_input_state" _ _ (by decide),
    PropMap.lookup_eq_none _ _ hc]
  simp [EventProps.get, optOr]

/-- The span-id key of a trace event is the trace's own id, unless the
custom properties shadow it. -/
theorem Trace.eventProps_spanId (t : Trace) (l : ℚ)
    (hc : PropMap.hasKey t.properties "$ai_span_id" = false) :
    EventProps.get (Trace.eventProps t l) "$ai_span_id"
      = some (Value.str t.id) := by
  simp only [Trace.eventProps, EventProps.get_append, EventProps.get_customSeg]
  rw [EventProps.get_errField_ne _ _ _ (by decide),
    EventProps.get_objField_ne "$ai_metadata" _ _ (by decide),
    PropMap.lookup_eq_none _ _ hc]
  have hseg : EventProps.get
      (if !t.privacy then
        objField "$ai_input_state" t.inputState
          ++ objField "$ai_output_state" t.outputState
      else []) "$ai_span_id" = none := by
    cases t.privacy with
    | false =>
        simp only [Bool.not_false, if_true, EventProps.get_append]
        rw [EventProps.get_objField_ne "$ai_input_state" _ _ (by decide),
          EventProps.get_objField_ne "$ai_output_state" _ _ (by decide)]
        rfl
    | true => rfl
  rw [hseg]
  simp [EventProps.get, optOr]

/-- Span options that shadow the reserved parent-id key. -/
def cx5Options : SpanOptions :=
  { name := "sp", properties := [("$ai_parent_id", "zzz")] }

/-- **C5 counterexample**: a span created directly from the sample root
trace (id `"t1"`) with a custom property named `$ai_parent_id` emits
that custom value, not the root's id, because the custom-properties
spread follows the reserved parent-id field. -/
theorem C5_counterexample :
    Except.map
        (fun s => EventProps.get ((Span.end s none 0).2.properties) "$ai_parent_id")
        (Trace.span sampleTrace "s5" 0 cx5Options)
      = Except.ok (some (Value.str "zzz"))
    ∧ sampleTrace.id = "t1"
    ∧ Value.str "zzz" ≠ Value.str "t1" :=
  ⟨rfl, rfl, by decide⟩

/-- **C5 (amended)**: provided the effective custom properties do not
shadow the reserved keys, a span created directly from a root unit
emits the root's id as its parent id; a span created from another span
emits that span's own id; and the root's own event reuses the trace id
as its span id. -/
theorem C5_parent_linkage
    (t : Trace) (p : Span) (f1 f2 : String) (n1 n2 : Int) (o : SpanOptions)
    (so : Option SpanEndOptions) (st : Int)
    (eo : Option TraceEndOptions) (et : Int)
    (ht : t.distinctId ≠ "") (hp : p.distinctId ≠ "") (hpid : p.id ≠ "") :
    (PropMap.hasKey (PropMap.merge t.properties o.properties) "$ai_parent_id" = false →
      Except.map
          (fun s => EventProps.get ((Span.end s so st).2.properties) "$ai_parent_id")
          (Trace.span t f1 n1 o)
        = Except.ok (some (Value.str t.id)))
    ∧ (PropMap.hasKey (PropMap.merge p.properties o.properties) "$ai_parent_id" = false →
      Except.map
          (fun s => EventProps.get ((Span.end s so st).2.properties) "$ai_parent_id")
          (Span.span p f2 n2 o)
        = Except.ok (some (Value.str p.id)))
    ∧ (PropMap.hasKey t.properties "$ai_span_id" = false →
      EventProps.get ((Trace.end t eo et).2.properties) "$ai_span_id"
        = some (Value.str t.id)) := by
  refine ⟨?_, ?_, ?_⟩
  · intro hc
    rw [traceSpan_ok t f1 n1 o ht]
    simp only [Except.map]
    rw [span_end_props, Span.eventProps_parentId]
    · rw [span_applyEnd_parentId, span_applyEnd_traceId]
      rfl
    · rw [span_applyEnd_properties]
      exact hc
  · intro hc
    rw [spanSpan_ok p f2 n2 o hp]
    simp only [Except.map]
    rw [span_end_props, Span.eventProps_parentId]
    · rw [span_applyEnd_parentId, span_applyEnd_traceId]
      show Except.ok (some (Value.str (strOr (some p.id) p.traceId))) = _
      simp [strOr, hpid]
    · rw [span_applyEnd_properties]
      exact hc
  · intro hc
    rw [trace_end_props, Trace.eventProps_spanId]
    · rw [trace_applyEnd_id]
    · rw [trace_applyEnd_properties]
      exact hc

/-- Witness for the amended C5: the sample span created directly from
the sample trace emits parent id `"t1"`, the trace's id. -/
theorem C5_witness :
    Except.map
        (fun s => EventProps.get ((Span.end s none 9).2.properties) "$ai_parent_id")
        (Trace.span sampleTrace "s1" 5 sampleSpanOptions)
      = Except.ok (some (Value.str "t1")) := by
  exact (C5_parent_linkage sampleTrace sampleSpan "s1" "s2" 5 6 sampleSpanOptions
    none 9 none 0 (by decide) (by decide) (by decide)).1 (by decide)

/-! ## C6 -/

/-- Whether a construction attempt succeeded (did not throw). -/
def isOkE {α : Type} (r : Except String α) : Bool :=
  match r with
  | .ok _ => true
  | .error _ => false

/-- A configuration with a process-wide default subject identifier. -/
def cx6Config : PostHogLLMOptions :=
  { defaultPrivacyMode := none, defaultDistinctId := some "default@example.com" }

/-- Trace options carrying a name but neither a user email nor a
distinct id. -/
def cx6Options : TraceOptions := { name := "op" }

/-- **C6 counterexample**: the claim says construction succeeds when a
process-wide default subject identifier has been configured; but
`PostHogLLM.trace` never consults `defaultDistinctId`, so construction
with neither a user email nor a distinct id in the options raises even
under that configuration. -/
theorem C6_counterexample :
    cx6Config.defaultDistinctId = some "default@example.com"
    ∧ PostHogLLM.trace cx6Config "t6" 0 cx6Options
        = Except.error "A user email (userEmail) is required for PostHog tracing" :=
  ⟨rfl, rfl⟩

/-- **C6 (amended)**: root-unit construction with neither a truthy user
email nor a truthy distinct id raises a configuration error
synchronously — even when a process-wide default subject identifier is
configured, because the default is never consulted — and construction
succeeds whenever the options supply a user email or a distinct id
directly. -/
theorem C6_construction_contract
    (cfg : PostHogLLMOptions) (f : String) (n : Int) (o : TraceOptions) :
    (strTruthy o.userEmail = false → strTruthy o.distinctId = false →
      PostHogLLM.trace cfg f n o
        = Except.error "A user email (userEmail) is required for PostHog tracing")
    ∧ (strTruthy o.userEmail = true → isOkE (PostHogLLM.trace cfg f n o) = true)
    ∧ (strTruthy o.distinctId = true → isOkE (PostHogLLM.trace cfg f n o) = true) := by
  refine ⟨?_, ?_, ?_⟩
  · intro h1 h2
    simp [PostHogLLM.trace, Trace.create, firstTruthy, h1, h2]
  · intro h
    cases hu : o.userEmail with
    | none => rw [hu] at h; exact absurd h (by simp [strTruthy])
    | some u =>
        rw [hu] at h
        simp only [strTruthy] at h
        simp [PostHogLLM.trace, Trace.create, firstTruthy, strTruthy, hu, h, isOkE]
  · intro h
    cases hue : strTruthy o.userEmail with
    | true =>
        cases hu : o.userEmail with
        | none => rw [hu] at hue; simp [strTruthy] at hue
        | some u =>
            rw [hu] at hue
            simp only [strTruthy] at hue
            simp [PostHogLLM.trace, Trace.create, firstTruthy, strTruthy, hu, hue, isOkE]
    | false =>
        cases hd : o.distinctId with
        | none => rw [hd] at h; simp [strTruthy] at h
        | some d =>
            rw [hd] at h
            simp only [strTruthy] at h
            have hue2 : (match o.userEmail with
              | some s => s != ""
              | none => false) = false := hue
            simp [PostHogLLM.trace, Trace.create, firstTruthy, strTruthy, hue2, hd, h, isOkE]

/-- Witness for the amended C6: with the default configured,
direct-supply construction succeeds and name-only construction
raises. -/
theorem C6_witness :
    PostHogLLM.trace cx6Config "t6" 0 cx6Options
      = Except.error "A user email (userEmail) is required for PostHog tracing"
    ∧ isOkE (PostHogLLM.trace cx6Config "t6" 0
        { name := "op", distinctId := some "user-123" }) = true := by
  constructor
  · exact (C6_construction_contract cx6Config "t6" 0 cx6Options).1 rfl rfl
  · exact (C6_construction_contract cx6Config "t6" 0
      { name := "op", distinctId := some "user-123" }).2.2 rfl

/-! ## C7 -/

/-- The latency key a trace event carries, unless the custom properties
shadow it: always the measured wall-clock time (a trace's end options
have no latency field). -/
theorem trace_eventProps_latency (t : Trace) (l : ℚ)
    (hc : PropMap.hasKey t.properties "$ai_latency" = false) :
    EventProps.get (Trace.eventProps t l) "$ai_latency" = some (Value.num l) := by
  simp only [Trace.eventProps, EventProps.get_append, EventProps.get_customSeg]
  rw [EventProps.get_errField_ne _ _ _ (by decide),
    EventProps.get_objField_ne "$ai_metadata" _ _ (by decide),
    PropMap.lookup_eq_none _ _ hc]
  have hseg : EventProps.get
      (if !t.privacy then
        objField "$ai_input_state" t.inputState
          ++ objField "$ai_output_state" t.outputState
      else []) "$ai_latency" = none := by
    cases t.privacy with
    | false =>
        simp only [Bool.not_false, if_true, EventProps.get_append]
        rw [EventProps.get_objField_ne "$ai_input_state" _ _ (by decide),
          EventProps.get_objField_ne "$ai_output_state" _ _ (by decide)]
        rfl
    | true => rfl
  rw [hseg]
  simp [EventProps.get, optOr]

/-- The latency key a span event carries, unless shadowed. -/
theorem span_eventProps_latency (s : Span) (l : ℚ)
    (hc : PropMap.hasKey s.properties "$ai_latency" = false) :
    EventProps.get (Span.eventProps s l) "$ai_latency" = some (Value.num l) := by
  simp only [Span.eventProps, EventProps.get_append, EventProps.get_customSeg]
  rw [EventProps.get_errField_ne _ _ _ (by decide),
    EventProps.get_objField_ne "$ai_metadata" _ _ (by decide),
    EventProps.get_objField_ne "$ai_output_state" _ _ (by decide),
    EventProps.get_objField_ne "$ai_input_state" _ _ (by decide),
    PropMap.lookup_eq_none _ _ hc]
  simp [EventProps.get, optOr]

/-- The latency key a generation event carries, unless shadowed. -/
theorem gen_eventProps_latency (g : Generation) (l : ℚ)
    (hc : PropMap.hasKey g.properties "$ai_latency" = false) :
    EventProps.get (Generation.eventProps g l) "$ai_latency" = some (Value.num l) := by
  simp only [Generation.eventProps, EventProps.get_append, EventProps.get_customSeg]
  rw [EventProps.get_errField_ne _ _ _ (by decide),
    EventProps.get_objField_ne "$ai_metadata" _ _ (by decide),
    EventProps.get_strField_ne "$ai_base_url" _ _ (by decide),
    EventProps.get_numField_ne "$ai_http_status" _ _ (by decide),
    EventProps.get_numField_ne "$ai_output_tokens" _ _ (by decide),
    EventProps.get_numField_ne "$ai_input_tokens" _ _ (by decide),
    EventProps.get_genOutputField_ne _ _ (by decide),
    PropMap.lookup_eq_none _ _ hc]
  simp [EventProps.get, optOr]

/-- The latency key an embedding event carries, unless shadowed. -/
theorem emb_eventProps_latency (e : Embedding) (l : ℚ)
    (hc : PropMap.hasKey e.properties "$ai_latency" = false) :
    EventProps.get (Embedding.eventProps e l) "$ai_latency" = some (Value.num l) := by
  simp only [Embedding.eventProps, EventProps.get_append, EventProps.get_customSeg]
  rw [EventProps.get_errField_ne _ _ _ (by decide),
    EventProps.get_objField_ne "$ai_metadata" _ _ (by decide),
    EventProps.get_strField_ne "$ai_base_url" _ _ (by decide),
    EventProps.get_numField_ne "$ai_http_status" _ _ (by decide),
    EventProps.get_numField_ne "$ai_input_tokens" _ _ (by decide),
    PropMap.lookup_eq_none _ _ hc]
  simp [EventProps.get, optOr]

/-- The latency key the event emitted by `Trace.end` carries: the
measured wall-clock time, whatever the end options were. -/
theorem trace_end_latencyKey (t : Trace) (o : Option TraceEndOptions) (et : Int)
    (hc : PropMap.hasKey t.properties "$ai_latency" = false) :
    EventProps.get ((Trace.end t o et).2.properties) "$ai_latency"
      = some (Value.num (((et - t.startTime : Int) : ℚ) / 1000)) := by
  rw [trace_end_props, trace_eventProps_latency]
  rw [trace_applyEnd_properties]
  exact hc

/-- The latency key the event emitted by `Span.end` carries: the
measured wall-clock time, whatever the end options were. -/
theorem span_end_latencyKey (s : Span) (o : Option SpanEndOptions) (et : Int)
    (hc : PropMap.hasKey s.properties "$ai_latency" = false) :
    EventProps.get ((Span.end s o et).2.properties) "$ai_latency"
      = some (Value.num (((et - s.startTime : Int) : ℚ) / 1000)) := by
  rw [span_end_props, span_eventProps_latency]
  rw [span_applyEnd_properties]
  exact hc

/-- The latency key the event emitted by `Generation.end` carries. -/
theorem gen_end_latencyKey (g : Generation) (o : Option GenerationEndOptions)
    (et : Int) (hc : PropMap.hasKey g.properties "$ai_latency" = false) :
    EventProps.get ((Generation.end g o et).2.properties) "$ai_latency"
      = some (Value.num (genEndLatency g o et)) := by
  rw [gen_end_props, gen_eventProps_latency]
  show PropMap.hasKey (Generation.applyEnd g o).properties "$ai_latency" = false
  rw [gen_applyEnd_properties]
  exact hc

/-- The latency key the event emitted by `Embedding.end` carries. -/
theorem emb_end_latencyKey (e : Embedding) (o : Option EmbeddingEndOptions)
    (et : Int) (hc : PropMap.hasKey e.properties "$ai_latency" = false) :
    EventProps.get ((Embedding.end e o et).2.properties) "$ai_latency"
      = some (Value.num (embEndLatency e o et)) := by
  rw [emb_end_props, emb_eventProps_latency]
  show PropMap.hasKey (Embedding.applyEnd e o).properties "$ai_latency" = false
  rw [emb_applyEnd_properties]
  exact hc

/-- A generation whose custom properties shadow the latency key. -/
def cx7Gen : Generation :=
  { sampleGen with properties := [("$ai_latency", "oops")] }

/-- **C7 counterexample**: a generation closed with an explicit latency
override of `1/2` emits `"oops"` in the latency field, because the
custom-properties spread overwrites the reserved latency field; the
claimed "exactly equal to that override" fails. -/
theorem C7_counterexample :
    EventProps.get
        ((Generation.end cx7Gen (some { latency := some (1/2) }) 2000).2.properties)
        "$ai_latency"
      = some (Value.str "oops")
    ∧ some (Value.str "oops") ≠ some (Value.num (1/2)) :=
  ⟨rfl, by simp⟩

/-- **C7 (amended)**: provided the custom properties do not shadow the
latency key, a Model-Call or Embedding Unit closed with an explicit
latency override emits exactly that override; Root and Sub-Units' end
options carry no latency field, and their emitted latency is always the
measured wall-clock time. -/
theorem C7_latency_override
    (g : Generation) (go : GenerationEndOptions) (l : ℚ) (gt : Int)
    (e : Embedding) (emo : EmbeddingEndOptions) (le : ℚ) (emt : Int)
    (t : Trace) (eo : Option TraceEndOptions) (et : Int)
    (s : Span) (so : Option SpanEndOptions) (st : Int)
    (hg : PropMap.hasKey g.properties "$ai_latency" = false)
    (he : PropMap.hasKey e.properties "$ai_latency" = false)
    (htc : PropMap.hasKey t.properties "$ai_latency" = false)
    (hsc : PropMap.hasKey s.properties "$ai_latency" = false) :
    (EventProps.get
        ((Generation.end g (some { go with latency := some l }) gt).2.properties)
        "$ai_latency" = some (Value.num l))
    ∧ (EventProps.get
        ((Embedding.end e (some { emo with latency := some le }) emt).2.properties)
        "$ai_latency" = some (Value.num le))
    ∧ (EventProps.get ((Trace.end t eo et).2.properties) "$ai_latency"
        = some (Value.num (((et - t.startTime : Int) : ℚ) / 1000)))
    ∧ (EventProps.get ((Span.end s so st).2.properties) "$ai_latency"
        = some (Value.num (((st - s.startTime : Int) : ℚ) / 1000))) := by
  refine ⟨?_, ?_, ?_, ?_⟩
  · rw [gen_end_latencyKey _ _ _ hg]
    rfl
  · rw [emb_end_latencyKey _ _ _ he]
    rfl
  · exact trace_end_latencyKey t eo et htc
  · exact span_end_latencyKey s so st hsc

/-- Witness for the amended C7: the sample generation closed with
override `1/2` reports latency `1/2`; the sample trace closed at time
2000 reports the measured two seconds. -/
theorem C7_witness :
    EventProps.get
        ((Generation.end sampleGen (some { latency := some (1/2) }) 2000).2.properties)
        "$ai_latency"
      = some (Value.num (1/2))
    ∧ EventProps.get ((Trace.end sampleTrace none 2000).2.properties) "$ai_latency"
      = some (Value.num (((2000 - sampleTrace.startTime : Int) : ℚ) / 1000)) := by
  have h := C7_latency_override sampleGen {} (1/2) 2000 sampleEmb {} 0 0
    sampleTrace none 2000 sampleSpan none 0 rfl rfl rfl rfl
  exact ⟨h.1, h.2.2.1⟩

/-! ## C8 -/

theorem gen_withLatency_properties (g : Generation) (l : Option ℚ) :
    ({ g with latency := l } : Generation).properties = g.properties := rfl

theorem gen_withLatency_metadata (g : Generation) (l : Option ℚ) :
    ({ g with latency := l } : Generation).metadata = g.metadata := rfl

theorem emb_withLatency_properties (e : Embedding) (l : Option ℚ) :
    ({ e with latency := l } : Embedding).properties = e.properties := rfl

theorem emb_withLatency_metadata (e : Embedding) (l : Option ℚ) :
    ({ e with latency := l } : Embedding).metadata = e.metadata := rfl

theorem gen_withLatency_output (g : Generation) (l : Option ℚ) :
    ({ g with latency := l } : Generation).output = g.output := rfl

theorem gen_withLatency_inputTokens (g : Generation) (l : Option ℚ) :
    ({ g with latency := l } : Generation).inputTokens = g.inputTokens := rfl

theorem gen_withLatency_outputTokens (g : Generation) (l : Option ℚ) :
    ({ g with latency := l } : Generation).outputTokens = g.outputTokens := rfl

theorem gen_withLatency_httpStatus (g : Generation) (l : Option ℚ) :
    ({ g with latency := l } : Generation).httpStatus = g.httpStatus := rfl

theorem gen_withLatency_baseUrl (g : Generation) (l : Option ℚ) :
    ({ g with latency := l } : Generation).baseUrl = g.baseUrl := rfl

theorem gen_withLatency_startTime (g : Generation) (l : Option ℚ) :
    ({ g with latency := l } : Generation).startTime = g.startTime := rfl

theorem emb_withLatency_inputTokens (e : Embedding) (l : Option ℚ) :
    ({ e with latency := l } : Embedding).inputTokens = e.inputTokens := rfl

theorem emb_withLatency_httpStatus (e : Embedding) (l : Option ℚ) :
    ({ e with latency := l } : Embedding).httpStatus = e.httpStatus := rfl

theorem emb_withLatency_baseUrl (e : Embedding) (l : Option ℚ) :
    ({ e with latency := l } : Embedding).baseUrl = e.baseUrl := rfl

theorem emb_withLatency_startTime (e : Embedding) (l : Option ℚ) :
    ({ e with latency := l } : Embedding).startTime = e.startTime := rfl

theorem gen_applyEnd_startTime (g : Generation) (o : Option GenerationEndOptions) :
    (Generation.applyEnd g o).startTime = g.startTime := by
  cases o <;> rfl

theorem emb_applyEnd_startTime (e : Embedding) (o : Option EmbeddingEndOptions) :
    (Embedding.applyEnd e o).startTime = e.startTime := by
  cases o <;> rfl

/-- The conditional numeric-field assignment, looked up at its own key. -/
theorem EventProps.get_numField_self (k : String) (o : Option Int) :
    EventProps.get (numField k o) k
      = Option.map (fun n => Value.num (n : ℚ)) o := by
  cases o <;> simp [numField, EventProps.get]

/-- The conditional string-field assignment, looked up at its own key,
when the string is truthy. -/
theorem EventProps.get_strField_self (k : String) (s : String) (h : s ≠ "") :
    EventProps.get (strField k (some s)) k = some (Value.str s) := by
  simp [strField, h, EventProps.get]

/-- The serialized value the output block writes for a truthy output:
an array as is, anything else wrapped with the default role. -/
def genOutputValue (out : Json) : String :=
  match out with
  | Json.arr elems => (Json.arr elems).stringify
  | _ => (Json.arr [Json.obj [("role", Json.str "assistant"), ("content", out)]]).stringify

/-- The output block, looked up at its own key, for a truthy output. -/
theorem EventProps.get_genOutputField_self (out : Json) (htr : Json.truthy out = true) :
    EventProps.get (genOutputField (some out)) "$ai_output_choices"
      = some (Value.str (genOutputValue out)) := by
  cases out with
  | null => simp [Json.truthy] at htr
  | arr elems => simp [genOutputField, genOutputValue, Json.truthy, EventProps.get]
  | bool b => simp [genOutputField, genOutputValue, htr, EventProps.get]
  | num n => simp [genOutputField, genOutputValue, htr, EventProps.get]
  | str s => simp [genOutputField, genOutputValue, htr, EventProps.get]
  | obj fields => simp [genOutputField, genOutputValue, htr, EventProps.get]

/-- In a trace event, a custom property whose key is none of the
conditionally-assigned field names survives into the emitted map (in
particular it overwrites the base fields of the same name). -/
theorem trace_end_customWins (t : Trace) (o : Option TraceEndOptions) (et : Int)
    (k : String) (v : String)
    (h1 : ("$ai_input_state" == k) = false) (h2 : ("$ai_output_state" == k) = false)
    (h3 : ("$ai_metadata" == k) = false) (h4 : ("$ai_error" == k) = false)
    (hv : PropMap.lookup t.properties k = some v) :
    EventProps.get ((Trace.end t o et).2.properties) k = some (Value.str v) := by
  rw [trace_end_props]
  simp only [Trace.eventProps, EventProps.get_append, EventProps.get_customSeg]
  rw [EventProps.get_errField_ne _ _ _ h4, EventProps.get_objField_ne _ _ _ h3]
  have hseg : EventProps.get
      (if !(Trace.applyEnd t o).privacy then
        objField "$ai_input_state" (Trace.applyEnd t o).inputState
          ++ objField "$ai_output_state" (Trace.applyEnd t o).outputState
      else []) k = none := by
    cases (Trace.applyEnd t o).privacy with
    | false =>
        simp only [Bool.not_false, if_true, EventProps.get_append]
        rw [EventProps.get_objField_ne _ _ _ h1, EventProps.get_objField_ne _ _ _ h2]
        rfl
    | true => rfl
  rw [hseg]
  simp [optOr, trace_applyEnd_properties, hv]

/-- Span-event analogue of `trace_end_customWins`. -/
theorem span_end_customWins (s : Span) (o : Option SpanEndOptions) (et : Int)
    (k : String) (v : String)
    (h1 : ("$ai_input_state" == k) = false) (h2 : ("$ai_output_state" == k) = false)
    (h3 : ("$ai_metadata" == k) = false) (h4 : ("$ai_error" == k) = false)
    (hv : PropMap.lookup s.properties k = some v) :
    EventProps.get ((Span.end s o et).2.properties) k = some (Value.str v) := by
  rw [span_end_props]
  simp only [Span.eventProps, EventProps.get_append, EventProps.get_customSeg]
  rw [EventProps.get_errField_ne _ _ _ h4, EventProps.get_objField_ne _ _ _ h3,
    EventProps.get_objField_ne _ _ _ h2, EventProps.get_objField_ne _ _ _ h1]
  simp [optOr, span_applyEnd_properties, hv]

/-- Generation-event analogue of `trace_end_customWins`. -/
theorem gen_end_customWins (g : Generation) (o : Option GenerationEndOptions)
    (et : Int) (k : String) (v : String)
    (h1 : ("$ai_output_choices" == k) = false)
    (h2 : ("$ai_input_tokens" == k) = false)
    (h3 : ("$ai_output_tokens" == k) = false)
    (h4 : ("$ai_http_status" == k) = false)
    (h5 : ("$ai_base_url" == k) = false)
    (h6 : ("$ai_metadata" == k) = false)
    (h7 : ("$ai_error" == k) = false)
    (hv : PropMap.lookup g.properties k = some v) :
    EventProps.get ((Generation.end g o et).2.properties) k = some (Value.str v) := by
  rw [gen_end_props]
  simp only [Generation.eventProps, EventProps.get_append, EventProps.get_customSeg]
  rw [EventProps.get_errField_ne _ _ _ h7, EventProps.get_objField_ne _ _ _ h6,
    EventProps.get_strField_ne _ _ _ h5, EventProps.get_numField_ne _ _ _ h4,
    EventProps.get_numField_ne _ _ _ h3, EventProps.get_numField_ne _ _ _ h2,
    EventProps.get_genOutputField_ne _ _ h1]
  simp [optOr, gen_withLatency_properties, gen_applyEnd_properties, hv]

/-- Embedding-event analogue of `trace_end_customWins`. -/
theorem emb_end_customWins (e : Embedding) (o : Option EmbeddingEndOptions)
    (et : Int) (k : String) (v : String)
    (h2 : ("$ai_input_tokens" == k) = false)
    (h4 : ("$ai_http_status" == k) = false)
    (h5 : ("$ai_base_url" == k) = false)
    (h6 : ("$ai_metadata" == k) = false)
    (h7 : ("$ai_error" == k) = false)
    (hv : PropMap.lookup e.properties k = some v) :
    EventProps.get ((Embedding.end e o et).2.properties) k = some (Value.str v) := by
  rw [emb_end_props]
  simp only [Embedding.eventProps, EventProps.get_append, EventProps.get_customSeg]
  rw [EventProps.get_errField_ne _ _ _ h7, EventProps.get_objField_ne _ _ _ h6,
    EventProps.get_strField_ne _ _ _ h5, EventProps.get_numField_ne _ _ _ h4,
    EventProps.get_numField_ne _ _ _ h2]
  simp [optOr, emb_withLatency_properties, emb_applyEnd_properties, hv]

/-- A trace with metadata `{m:"v"}` and a custom property shadowing the
reserved metadata key. -/
def cx8Trace : Trace :=
  { sampleTrace with
      metadata := some [("m", Json.str "v")]
      properties := [("$ai_metadata", "custom")] }

/-- **C8 counterexample**: the claim says the custom properties map is
applied last and overwrites every reserved field of the same name; but
`$ai_metadata` is assigned after the custom-properties spread, so the
emitted value is the serialized metadata, not the custom property
`"custom"`. -/
theorem C8_counterexample :
    PropMap.lookup cx8Trace.properties "$ai_metadata" = some "custom"
    ∧ EventProps.get ((Trace.end cx8Trace none 0).2.properties) "$ai_metadata"
        = some (Value.str "\x7b\"m\":\"v\"\x7d")
    ∧ Value.str "\x7b\"m\":\"v\"\x7d" ≠ Value.str "custom" :=
  ⟨rfl, rfl, by decide⟩

/-- **C8 (amended)**: the custom-properties spread overwrites exactly
the reserved fields assembled before it in the base object literal
(ids, names, model, provider, input, latency, error flag); the
conditionally-assigned fields — input/output state (for a Root Unit,
gated on privacy being off), output choices (for a truthy output),
token counts, HTTP status, base URL (when non-empty), metadata, and
error (when the flag is set and the value truthy) — are written after
the spread and, whenever they fire, overwrite a custom property of the
same name.  Proved for every such field of every variant. -/
theorem C8_custom_property_precedence
    (t : Trace) (eo : Option TraceEndOptions) (et : Int)
    (s : Span) (so : Option SpanEndOptions) (st : Int)
    (g : Generation) (go : Option GenerationEndOptions) (gt : Int)
    (e : Embedding) (emo : Option EmbeddingEndOptions) (emt : Int) :
    (∀ k v, k ∈ ["$ai_trace_id", "$ai_span_id", "$ai_span_name",
        "$ai_latency", "$ai_is_error"] →
      PropMap.lookup t.properties k = some v →
      EventProps.get ((Trace.end t eo et).2.properties) k = some (Value.str v))
    ∧ (∀ m, (Trace.applyEnd t eo).metadata = some m →
      EventProps.get ((Trace.end t eo et).2.properties) "$ai_metadata"
        = some (Value.str (Json.obj m).stringify))
    ∧ (∀ k v, k ∈ ["$ai_trace_id", "$ai_span_id", "$ai_span_name",
        "$ai_parent_id", "$ai_latency", "$ai_is_error"] →
      PropMap.lookup s.properties k = some v →
      EventProps.get ((Span.end s so st).2.properties) k = some (Value.str v))
    ∧ (∀ m, (Span.applyEnd s so).metadata = some m →
      EventProps.get ((Span.end s so st).2.properties) "$ai_metadata"
        = some (Value.str (Json.obj m).stringify))
    ∧ (∀ k v, k ∈ ["$ai_trace_id", "$ai_model", "$ai_provider",
        "$ai_input", "$ai_latency", "$ai_is_error"] →
      PropMap.lookup g.properties k = some v →
      EventProps.get ((Generation.end g go gt).2.properties) k = some (Value.str v))
    ∧ (∀ m, (Generation.applyEnd g go).metadata = some m →
      EventProps.get ((Generation.end g go gt).2.properties) "$ai_metadata"
        = some (Value.str (Json.obj m).stringify))
    ∧ (∀ k v, k ∈ ["$ai_trace_id", "$ai_model", "$ai_provider",
        "$ai_input", "$ai_latency", "$ai_is_error"] →
      PropMap.lookup e.properties k = some v →
      EventProps.get ((Embedding.end e emo emt).2.properties) k = some (Value.str v))
    ∧ (∀ m, (Embedding.applyEnd e emo).metadata = some m →
      EventProps.get ((Embedding.end e emo emt).2.properties) "$ai_metadata"
        = some (Value.str (Json.obj m).stringify))
    ∧ (t.privacy = false → ∀ v, t.inputState = some v →
      EventProps.get ((Trace.end t eo et).2.properties) "$ai_input_state"
        = some (Value.str (Json.obj v).stringify))
    ∧ (t.privacy = false → ∀ v, (Trace.applyEnd t eo).outputState = some v →
      EventProps.get ((Trace.end t eo et).2.properties) "$ai_output_state"
        = some (Value.str (Json.obj v).stringify))
    ∧ (∀ err, (Trace.applyEnd t eo).isError = true →
      (Trace.applyEnd t eo).error = some err → ErrVal.truthy err = true →
      EventProps.get ((Trace.end t eo et).2.properties) "$ai_error"
        = some (Value.str (ErrVal.normalize err)))
    ∧ (∀ v, s.inputState = some v →
      EventProps.get ((Span.end s so st).2.properties) "$ai_input_state"
        = some (Value.str (Json.obj v).stringify))
    ∧ (∀ v, (Span.applyEnd s so).outputState = some v →
      EventProps.get ((Span.end s so st).2.properties) "$ai_output_state"
        = some (Value.str (Json.obj v).stringify))
    ∧ (∀ err, (Span.applyEnd s so).isError = true →
      (Span.applyEnd s so).error = some err → ErrVal.truthy err = true →
      EventProps.get ((Span.end s so st).2.properties) "$ai_error"
        = some (Value.str (ErrVal.normalize err)))
    ∧ (∀ out, (Generation.applyEnd g go).output = some out → Json.truthy out = true →
      EventProps.get ((Generation.end g go gt).2.properties) "$ai_output_choices"
        = some (Value.str (genOutputValue out)))
    ∧ (∀ n, (Generation.applyEnd g go).inputTokens = some n →
      EventProps.get ((Generation.end g go gt).2.properties) "$ai_input_tokens"
        = some (Value.num (n : ℚ)))
    ∧ (∀ n, (Generation.applyEnd g go).outputTokens = some n →
      EventProps.get ((Generation.end g go gt).2.properties) "$ai_output_tokens"
        = some (Value.num (n : ℚ)))
    ∧ (∀ n, (Generation.applyEnd g go).httpStatus = some n →
      EventProps.get ((Generation.end g go gt).2.properties) "$ai_http_status"
        = some (Value.num (n : ℚ)))
    ∧ (∀ b, (Generation.applyEnd g go).baseUrl = some b → b ≠ "" →
      EventProps.get ((Generation.end g go gt).2.properties) "$ai_base_url"
        = some (Value.str b))
    ∧ (∀ err, (Generation.applyEnd g go).isError = true →
      (Generation.applyEnd g go).error = some err → ErrVal.truthy err = true →
      EventProps.get ((Generation.end g go gt).2.properties) "$ai_error"
        = some (Value.str (ErrVal.normalize err)))
    ∧ (∀ n, (Embedding.applyEnd e emo).inputTokens = some n →
      EventProps.get ((Embedding.end e emo emt).2.properties) "$ai_input_tokens"
        = some (Value.num (n : ℚ)))
    ∧ (∀ n, (Embedding.applyEnd e emo).httpStatus = some n →
      EventProps.get ((Embedding.end e emo emt).2.properties) "$ai_http_status"
        = some (Value.num (n : ℚ)))
    ∧ (∀ b, (Embedding.applyEnd e emo).baseUrl = some b → b ≠ "" →
      EventProps.get ((Embedding.end e emo emt).2.properties) "$ai_base_url"
        = some (Value.str b))
    ∧ (∀ err, (Embedding.applyEnd e emo).isError = true →
      (Embedding.applyEnd e emo).error = some err → ErrVal.truthy err = true →
      EventProps.get ((Embedding.end e emo emt).2.properties) "$ai_error"
        = some (Value.str (ErrVal.normalize err))) := by
  refine ⟨?_, ?_, ?_, ?_, ?_, ?_, ?_, ?_, ?_, ?_, ?_, ?_, ?_, ?_, ?_, ?_, ?_, ?_,
    ?_, ?_, ?_, ?_, ?_, ?_⟩
  · intro k v hk hv
    simp only [List.mem_cons, List.not_mem_nil, or_false] at hk
    rcases hk with rfl | rfl | rfl | rfl | rfl <;>
      exact trace_end_customWins _ _ _ _ _ (by decide) (by decide) (by decide)
        (by decide) hv
  · intro m hm
    rw [trace_end_props]
    simp only [Trace.eventProps, EventProps.get_append]
    rw [EventProps.get_errField_ne _ _ _ (by decide), hm,
      EventProps.get_objField_self]
    simp [optOr]
  · intro k v hk hv
    simp only [List.mem_cons, List.not_mem_nil, or_false] at hk
    rcases hk with rfl | rfl | rfl | rfl | rfl | rfl <;>
      exact span_end_customWins _ _ _ _ _ (by decide) (by decide) (by decide)
        (by decide) hv
  · intro m hm
    rw [span_end_props]
    simp only [Span.eventProps, EventProps.get_append]
    rw [EventProps.get_errField_ne _ _ _ (by decide), hm,
      EventProps.get_objField_self]
    simp [optOr]
  · intro k v hk hv
    simp only [List.mem_cons, List.not_mem_nil, or_false] at hk
    rcases hk with rfl | rfl | rfl | rfl | rfl | rfl <;>
      exact gen_end_customWins _ _ _ _ _ (by decide) (by decide) (by decide)
        (by decide) (by decide) (by decide) (by decide) hv
  · intro m hm
    rw [gen_end_props]
    simp only [Generation.eventProps, EventProps.get_append,
      gen_withLatency_metadata]
    rw [EventProps.get_errField_ne _ _ _ (by decide), hm,
      EventProps.get_objField_self]
    simp [optOr]
  · intro k v hk hv
    simp only [List.mem_cons, List.not_mem_nil, or_false] at hk
    rcases hk with rfl | rfl | rfl | rfl | rfl | rfl <;>
      exact emb_end_customWins _ _ _ _ _ (by decide) (by decide) (by decide)
        (by decide) (by decide) hv
  · intro m hm
    rw [emb_end_props]
    simp only [Embedding.eventProps, EventProps.get_append,
      emb_withLatency_metadata]
    rw [EventProps.get_errField_ne _ _ _ (by decide), hm,
      EventProps.get_objField_self]
    simp [optOr]
  · intro hpriv v hv
    rw [trace_end_props]
    simp only [Trace.eventProps, EventProps.get_append, trace_applyEnd_privacy,
      trace_applyEnd_inputState, hpriv, hv]
    rw [EventProps.get_errField_ne _ _ _ (by decide),
      EventProps.get_objField_ne "$ai_metadata" _ _ (by decide)]
    simp only [Bool.not_false, if_true, EventProps.get_append]
    rw [EventProps.get_objField_ne "$ai_output_state" _ _ (by decide),
      EventProps.get_objField_self]
    simp [optOr]
  · intro hpriv v hv
    rw [trace_end_props]
    simp only [Trace.eventProps, EventProps.get_append, trace_applyEnd_privacy,
      hpriv, hv]
    rw [EventProps.get_errField_ne _ _ _ (by decide),
      EventProps.get_objField_ne "$ai_metadata" _ _ (by decide)]
    simp only [Bool.not_false, if_true, EventProps.get_append]
    rw [EventProps.get_objField_ne "$ai_input_state" _ _ (by decide),
      EventProps.get_objField_self]
    simp [optOr]
  · intro err h1 h2 htr
    rw [trace_end_props, trace_eventProps_error, h1, h2]
    simp [errField, htr, EventProps.get, optOr]
  · intro v hv
    rw [span_end_props]
    simp only [Span.eventProps, EventProps.get_append, span_applyEnd_inputState, hv]
    rw [EventProps.get_errField_ne _ _ _ (by decide),
      EventProps.get_objField_ne "$ai_metadata" _ _ (by decide),
      EventProps.get_objField_ne "$ai_output_state" _ _ (by decide),
      EventProps.get_objField_self]
    simp [optOr]
  · intro v hv
    rw [span_end_props]
    simp only [Span.eventProps, EventProps.get_append, hv]
    rw [EventProps.get_errField_ne _ _ _ (by decide),
      EventProps.get_objField_ne "$ai_metadata" _ _ (by decide),
      EventProps.get_objField_self]
    simp [optOr]
  · intro err h1 h2 htr
    rw [span_end_props, span_eventProps_error, h1, h2]
    simp [errField, htr, EventProps.get, optOr]
  · intro out hout htr
    rw [gen_end_props]
    simp only [Generation.eventProps, EventProps.get_append, gen_withLatency_output]
    rw [EventProps.get_errField_ne _ _ _ (by decide),
      EventProps.get_objField_ne "$ai_metadata" _ _ (by decide),
      EventProps.get_strField_ne "$ai_base_url" _ _ (by decide),
      EventProps.get_numField_ne "$ai_http_status" _ _ (by decide),
      EventProps.get_numField_ne "$ai_output_tokens" _ _ (by decide),
      EventProps.get_numField_ne "$ai_input_tokens" _ _ (by decide),
      hout, EventProps.get_genOutputField_self out htr]
    simp [optOr]
  · intro n hn
    rw [gen_end_props]
    simp only [Generation.eventProps, EventProps.get_append,
      gen_withLatency_inputTokens]
    rw [EventProps.get_errField_ne _ _ _ (by decide),
      EventProps.get_objField_ne "$ai_metadata" _ _ (by decide),
      EventProps.get_strField_ne "$ai_base_url" _ _ (by decide),
      EventProps.get_numField_ne "$ai_http_status" _ _ (by decide),
      EventProps.get_numField_ne "$ai_output_tokens" _ _ (by decide),
      hn, EventProps.get_numField_self]
    simp [optOr]
  · intro n hn
    rw [gen_end_props]
    simp only [Generation.eventProps, EventProps.get_append,
      gen_withLatency_outputTokens]
    rw [EventProps.get_errField_ne _ _ _ (by decide),
      EventProps.get_objField_ne "$ai_metadata" _ _ (by decide),
      EventProps.get_strField_ne "$ai_base_url" _ _ (by decide),
      EventProps.get_numField_ne "$ai_http_status" _ _ (by decide),
      hn, EventProps.get_numField_self]
    simp [optOr]
  · intro n hn
    rw [gen_end_props]
    simp only [Generation.eventProps, EventProps.get_append,
      gen_withLatency_httpStatus]
    rw [EventProps.get_errField_ne _ _ _ (by decide),
      EventProps.get_objField_ne "$ai_metadata" _ _ (by decide),
      EventProps.get_strField_ne "$ai_base_url" _ _ (by decide),
      hn, EventProps.get_numField_self]
    simp [optOr]
  · intro b hb hbne
    rw [gen_end_props]
    simp only [Generation.eventProps, EventProps.get_append,
      gen_withLatency_baseUrl]
    rw [EventProps.get_errField_ne _ _ _ (by decide),
      EventProps.get_objField_ne "$ai_metadata" _ _ (by decide),
      hb, EventProps.get_strField_self _ _ hbne]
    simp [optOr]
  · intro err h1 h2 htr
    rw [gen_end_error, h1, h2]
    simp [errField, htr, EventProps.get, optOr]
  · intro n hn
    rw [emb_end_props]
    simp only [Embedding.eventProps, EventProps.get_append,
      emb_withLatency_inputTokens]
    rw [EventProps.get_errField_ne _ _ _ (by decide),
      EventProps.get_objField_ne "$ai_metadata" _ _ (by decide),
      EventProps.get_strField_ne "$ai_base_url" _ _ (by decide),
      EventProps.get_numField_ne "$ai_http_status" _ _ (by decide),
      hn, EventProps.get_numField_self]
    simp [optOr]
  · intro n hn
    rw [emb_end_props]
    simp only [Embedding.eventProps, EventProps.get_append,
      emb_withLatency_httpStatus]
    rw [EventProps.get_errField_ne _ _ _ (by decide),
      EventProps.get_objField_ne "$ai_metadata" _ _ (by decide),
      EventProps.get_strField_ne "$ai_base_url" _ _ (by decide),
      hn, EventProps.get_numField_self]
    simp [optOr]
  · intro b hb hbne
    rw [emb_end_props]
    simp only [Embedding.eventProps, EventProps.get_append,
      emb_withLatency_baseUrl]
    rw [EventProps.get_errField_ne _ _ _ (by decide),
      EventProps.get_objField_ne "$ai_metadata" _ _ (by decide),
      hb, EventProps.get_strField_self _ _ hbne]
    simp [optOr]
  · intro err h1 h2 htr
    rw [emb_end_error, h1, h2]
    simp [errField, htr, EventProps.get, optOr]

/-- A trace whose custom properties shadow the (base-literal) span-name
field. -/
def sampleShadowTrace : Trace :=
  { sampleTrace with properties := [("$ai_span_name", "shadow")] }

/-- Witness for the amended C8: a custom `$ai_span_name` wins over the
base field, while a present metadata value wins over the custom
`$ai_metadata`. -/
theorem C8_witness :
    EventProps.get ((Trace.end sampleShadowTrace none 0).2.properties) "$ai_span_name"
      = some (Value.str "shadow")
    ∧ EventProps.get ((Trace.end cx8Trace none 0).2.properties) "$ai_metadata"
      = some (Value.str (Json.obj [("m", Json.str "v")]).stringify) := by
  constructor
  · exact (C8_custom_property_precedence sampleShadowTrace none 0 sampleSpan none 0
      sampleGen none 0 sampleEmb none 0).1 "$ai_span_name" "shadow" (by decide) rfl
  · exact (C8_custom_property_precedence cx8Trace none 0 sampleSpan none 0
      sampleGen none 0 sampleEmb none 0).2.1 [("m", Json.str "v")] rfl

/-! ## C9 -/

/-- A trace whose custom properties shadow the latency key. -/
def cx9Trace : Trace :=
  { sampleTrace with properties := [("$ai_latency", "oops")] }

/-- **C9 counterexample**: the claim says each of the two events emitted
by a double `end` carries an independently recomputed duration, but
with a custom property shadowing the latency key both events carry the
custom string instead of either recomputed duration. -/
theorem C9_counterexample :
    EventProps.get ((Trace.end cx9Trace none 1000).2.properties) "$ai_latency"
      = some (Value.str "oops")
    ∧ EventProps.get
        ((Trace.end (Trace.end cx9Trace none 1000).1 none 2000).2.properties)
        "$ai_latency"
      = some (Value.str "oops")
    ∧ Value.str "oops" ≠ Value.num (((1000 - cx9Trace.startTime : Int) : ℚ) / 1000)
    ∧ Value.str "oops" ≠ Value.num (((2000 - cx9Trace.startTime : Int) : ℚ) / 1000) :=
  ⟨rfl, rfl, by simp, by simp⟩

/-- **C9 (amended)**: `end` is not guarded: for every variant, calling
it twice emits two events (both with the variant's event name), and —
provided the custom properties do not shadow the latency key — each
event carries the latency that call itself computes: the explicit
override when that call's end options supply one (Model-Call and
Embedding Units only), otherwise the wall-clock time measured from the
unit's original start time to that call's own end time. -/
theorem C9_double_end
    (t : Trace) (o1 o2 : Option TraceEndOptions) (e1 e2 : Int)
    (s : Span) (so1 so2 : Option SpanEndOptions) (f1 f2 : Int)
    (g : Generation) (go1 go2 : Option GenerationEndOptions) (n1 n2 : Int)
    (em : Embedding) (emo1 emo2 : Option EmbeddingEndOptions) (m1 m2 : Int)
    (ht : PropMap.hasKey t.properties "$ai_latency" = false)
    (hs : PropMap.hasKey s.properties "$ai_latency" = false)
    (hg : PropMap.hasKey g.properties "$ai_latency" = false)
    (hem : PropMap.hasKey em.properties "$ai_latency" = false) :
    (EventProps.get ((Trace.end t o1 e1).2.properties) "$ai_latency"
      = some (Value.num (((e1 - t.startTime : Int) : ℚ) / 1000)))
    ∧ (EventProps.get ((Trace.end (Trace.end t o1 e1).1 o2 e2).2.properties) "$ai_latency"
      = some (Value.num (((e2 - t.startTime : Int) : ℚ) / 1000)))
    ∧ (Trace.end t o1 e1).2.event = "$ai_trace"
    ∧ (Trace.end (Trace.end t o1 e1).1 o2 e2).2.event = "$ai_trace"
    ∧ (EventProps.get ((Span.end s so1 f1).2.properties) "$ai_latency"
      = some (Value.num (((f1 - s.startTime : Int) : ℚ) / 1000)))
    ∧ (EventProps.get ((Span.end (Span.end s so1 f1).1 so2 f2).2.properties) "$ai_latency"
      = some (Value.num (((f2 - s.startTime : Int) : ℚ) / 1000)))
    ∧ (Span.end s so1 f1).2.event = "$ai_span"
    ∧ (Span.end (Span.end s so1 f1).1 so2 f2).2.event = "$ai_span"
    ∧ (EventProps.get ((Generation.end g go1 n1).2.properties) "$ai_latency"
      = some (Value.num (genEndLatency g go1 n1)))
    ∧ (EventProps.get ((Generation.end (Generation.end g go1 n1).1 go2 n2).2.properties)
        "$ai_latency" = some (Value.num (genEndLatency g go2 n2)))
    ∧ (Generation.end g go1 n1).2.event = "$ai_generation"
    ∧ (Generation.end (Generation.end g go1 n1).1 go2 n2).2.event = "$ai_generation"
    ∧ (EventProps.get ((Embedding.end em emo1 m1).2.properties) "$ai_latency"
      = some (Value.num (embEndLatency em emo1 m1)))
    ∧ (EventProps.get ((Embedding.end (Embedding.end em emo1 m1).1 emo2 m2).2.properties)
        "$ai_latency" = some (Value.num (embEndLatency em emo2 m2)))
    ∧ (Embedding.end em emo1 m1).2.event = "$ai_embedding"
    ∧ (Embedding.end (Embedding.end em emo1 m1).1 emo2 m2).2.event = "$ai_embedding" := by
  refine ⟨trace_end_latencyKey t o1 e1 ht, ?_, rfl, rfl, span_end_latencyKey s so1 f1 hs,
    ?_, rfl, rfl, gen_end_latencyKey g go1 n1 hg, ?_, rfl, rfl,
    emb_end_latencyKey em emo1 m1 hem, ?_, rfl, rfl⟩
  · have h2 := trace_end_latencyKey (Trace.end t o1 e1).1 o2 e2
      (by rw [trace_end_fst, trace_applyEnd_properties]; exact ht)
    rw [show (Trace.end t o1 e1).1.startTime = t.startTime from by
      rw [trace_end_fst, trace_applyEnd_startTime]] at h2
    exact h2
  · have h2 := span_end_latencyKey (Span.end s so1 f1).1 so2 f2
      (by rw [span_end_fst, span_applyEnd_properties]; exact hs)
    rw [show (Span.end s so1 f1).1.startTime = s.startTime from by
      rw [span_end_fst, span_applyEnd_startTime]] at h2
    exact h2
  · have h2 := gen_end_latencyKey (Generation.end g go1 n1).1 go2 n2
      (by rw [gen_end_fst, gen_withLatency_properties, gen_applyEnd_properties]
          exact hg)
    have hst : (Generation.end g go1 n1).1.startTime = g.startTime := by
      rw [gen_end_fst, gen_withLatency_startTime, gen_applyEnd_startTime]
    have hlat : genEndLatency (Generation.end g go1 n1).1 go2 n2
        = genEndLatency g go2 n2 := by
      cases go2 with
      | none => simp [genEndLatency, hst]
      | some o => cases o.latency <;> simp [genEndLatency, hst]
    rw [hlat] at h2
    exact h2
  · have h2 := emb_end_latencyKey (Embedding.end em emo1 m1).1 emo2 m2
      (by rw [emb_end_fst, emb_withLatency_properties, emb_applyEnd_properties]
          exact hem)
    have hst : (Embedding.end em emo1 m1).1.startTime = em.startTime := by
      rw [emb_end_fst, emb_withLatency_startTime, emb_applyEnd_startTime]
    have hlat : embEndLatency (Embedding.end em emo1 m1).1 emo2 m2
        = embEndLatency em emo2 m2 := by
      cases emo2 with
      | none => simp [embEndLatency, hst]
      | some o => cases o.latency <;> simp [embEndLatency, hst]
    rw [hlat] at h2
    exact h2

/-- Witness for the amended C9: ending the sample trace at 1000 ms and
again at 2000 ms emits latencies of one and two seconds; ending the
sample generation twice, the second time with an explicit override of
`1/2`, emits that call's own computed latency each time. -/
theorem C9_witness :
    EventProps.get ((Trace.end sampleTrace none 1000).2.properties) "$ai_latency"
      = some (Value.num (((1000 - sampleTrace.startTime : Int) : ℚ) / 1000))
    ∧ EventProps.get
        ((Trace.end (Trace.end sampleTrace none 1000).1 none 2000).2.properties)
        "$ai_latency"
      = some (Value.num (((2000 - sampleTrace.startTime : Int) : ℚ) / 1000))
    ∧ EventProps.get ((Generation.end sampleGen none 1000).2.properties) "$ai_latency"
      = some (Value.num (genEndLatency sampleGen none 1000))
    ∧ EventProps.get
        ((Generation.end (Generation.end sampleGen none 1000).1
          (some { latency := some (1/2) }) 2000).2.properties) "$ai_latency"
      = some (Value.num (genEndLatency sampleGen (some { latency := some (1/2) }) 2000)) := by
  have h := C9_double_end sampleTrace none none 1000 2000 sampleSpan none none 0 0
    sampleGen none (some { latency := some (1/2) }) 1000 2000
    sampleEmb none none 0 0 rfl rfl rfl rfl
  exact ⟨h.1, h.2.1, h.2.2.2.2.2.2.2.2.1, h.2.2.2.2.2.2.2.2.2.1⟩

/-! ## C10 -/

/-- The output-choices key of the event `Generation.end` emits is
exactly what the output block writes, unless the custom properties
shadow it. -/
theorem Generation.end_outputKey (g : Generation) (o : Option GenerationEndOptions)
    (et : Int) (hc : PropMap.hasKey g.properties "$ai_output_choices" = false) :
    EventProps.get ((Generation.end g o et).2.properties) "$ai_output_choices"
      = EventProps.get (genOutputField (Generation.applyEnd g o).output)
          "$ai_output_choices" := by
  rw [gen_end_props]
  simp only [Generation.eventProps, EventProps.get_append, EventProps.get_customSeg,
    gen_withLatency_properties, gen_withLatency_output]
  rw [EventProps.get_errField_ne _ _ _ (by decide),
    EventProps.get_objField_ne "$ai_metadata" _ _ (by decide),
    EventProps.get_strField_ne "$ai_base_url" _ _ (by decide),
    EventProps.get_numField_ne "$ai_http_status" _ _ (by decide),
    EventProps.get_numField_ne "$ai_output_tokens" _ _ (by decide),
    EventProps.get_numField_ne "$ai_input_tokens" _ _ (by decide),
    PropMap.lookup_eq_none _ _ (by rw [gen_applyEnd_properties]; exact hc)]
  simp [optOr_none_left, optOr_none_right, EventProps.get]

/-- A generation whose output is the empty string — present but falsy. -/
def cx10Gen : Generation :=
  { sampleGen with output := some (Json.str "") }

/-- A generation with no output whose custom properties shadow the
output-choices key. -/
def cx10bGen : Generation :=
  { sampleGen with properties := [("$ai_output_choices", "ghost")] }

/-- **C10 counterexample**: (i) a present non-list output equal to the
empty string is falsy, so `if (this.output)` skips it and no
output-choices field is emitted, contradicting the claimed wrapping of
every present output; (ii) with no output at all, a custom property
named `$ai_output_choices` still puts the key into the emitted map. -/
theorem C10_counterexample :
    (cx10Gen.output = some (Json.str "")
      ∧ EventProps.hasKey ((Generation.end cx10Gen none 0).2.properties)
          "$ai_output_choices" = false)
    ∧ (cx10bGen.output = none
      ∧ EventProps.hasKey ((Generation.end cx10bGen none 0).2.properties)
          "$ai_output_choices" = true) :=
  ⟨⟨rfl, rfl⟩, rfl, rfl⟩

/-- **C10 (amended)**: provided the custom properties do not shadow the
output-choices key: a final output that is a list is serialized as is;
a final output that is truthy but not a list is wrapped in a
single-element list with role `"assistant"` and serialized; no output,
or a falsy output (such as the empty string), yields no output-choices
field. -/
theorem C10_output_wrapping
    (g : Generation) (go : Option GenerationEndOptions) (gt : Int)
    (hc : PropMap.hasKey g.properties "$ai_output_choices" = false) :
    (∀ elems, (Generation.applyEnd g go).output = some (Json.arr elems) →
      EventProps.get ((Generation.end g go gt).2.properties) "$ai_output_choices"
        = some (Value.str (Json.arr elems).stringify))
    ∧ (∀ out, (Generation.applyEnd g go).output = some out →
        Json.truthy out = true → (∀ elems, out ≠ Json.arr elems) →
      EventProps.get ((Generation.end g go gt).2.properties) "$ai_output_choices"
        = some (Value.str
            (Json.arr [Json.obj [("role", Json.str "assistant"), ("content", out)]]).stringify))
    ∧ ((Generation.applyEnd g go).output = none →
      EventProps.hasKey ((Generation.end g go gt).2.properties) "$ai_output_choices" = false)
    ∧ (∀ out, (Generation.applyEnd g go).output = some out → Json.truthy out = false →
      EventProps.hasKey ((Generation.end g go gt).2.properties) "$ai_output_choices" = false) := by
  refine ⟨?_, ?_, ?_, ?_⟩
  · intro elems hout
    rw [Generation.end_outputKey _ _ _ hc, hout]
    simp [genOutputField, Json.truthy, EventProps.get]
  · intro out hout htr hne
    rw [Generation.end_outputKey _ _ _ hc, hout]
    cases out with
    | arr elems => exact absurd rfl (hne elems)
    | null => simp [Json.truthy] at htr
    | bool b => simp [genOutputField, htr, EventProps.get]
    | num n => simp [genOutputField, htr, EventProps.get]
    | str v => simp [genOutputField, htr, EventProps.get]
    | obj fields => simp [genOutputField, htr, EventProps.get]
  · intro hout
    rw [event_hasKey_eq_isSome, Generation.end_outputKey _ _ _ hc, hout]
    rfl
  · intro out hout htr
    rw [event_hasKey_eq_isSome, Generation.end_outputKey _ _ _ hc, hout]
    simp [genOutputField, htr, EventProps.get]

/-- A generation with a plain-string output. -/
def sampleOutGen : Generation :=
  { sampleGen with output := some (Json.str "Paris") }

/-- A generation with a list output. -/
def sampleArrGen : Generation :=
  { sampleGen with output := some (Json.arr [Json.str "a", Json.str "b"]) }

/-- Witness for the amended C10: a plain-string output is wrapped with
the default role and serialized; a list output is serialized as is. -/
theorem C10_witness :
    EventProps.get ((Generation.end sampleOutGen none 0).2.properties) "$ai_output_choices"
      = some (Value.str
          (Json.arr [Json.obj [("role", Json.str "assistant"),
            ("content", Json.str "Paris")]]).stringify)
    ∧ EventProps.get ((Generation.end sampleArrGen none 0).2.properties) "$ai_output_choices"
      = some (Value.str (Json.arr [Json.str "a", Json.str "b"]).stringify) := by
  constructor
  · exact (C10_output_wrapping sampleOutGen none 0 rfl).2.1 (Json.str "Paris") rfl rfl
      (fun elems h => by simp at h)
  · exact (C10_output_wrapping sampleArrGen none 0 rfl).1 [Json.str "a", Json.str "b"] rfl

end PosthogLLM
